import Mathlib

/-!
Verification development for the Zendesk → MySQL incremental backup tool
(`backup.py`).  The relational store, the upsert/delete statements, the
retry loop, the checkpoint logic and the sync coordinators are shallowly
embedded as executable Lean definitions; network I/O is represented by
scripted pages/responses supplied as explicit inputs.
-/

namespace ZBackup

/-! ## Association lists: the model of a SQL table keyed by its primary key.

`INSERT ... ON DUPLICATE KEY UPDATE` over a table whose primary key is
unique is modelled by `alUpsert` (replace in place if the key exists,
append otherwise); point lookup by `alGet`.
-/

def alUpsert {α β : Type} [DecidableEq α] (m : List (α × β)) (k : α) (v : β) :
    List (α × β) :=
  match m with
  | [] => [(k, v)]
  | (k1, v1) :: rest => if k1 = k then (k, v) :: rest else (k1, v1) :: alUpsert rest k v

def alGet {α β : Type} [DecidableEq α] (m : List (α × β)) (k : α) : Option β :=
  match m with
  | [] => none
  | (k1, v1) :: rest => if k1 = k then some v1 else alGet rest k

def alKeys {α β : Type} (m : List (α × β)) : List α := m.map Prod.fst

def alCountKey {α β : Type} [DecidableEq α] (m : List (α × β)) (k : α) : Nat :=
  (m.filter (fun p => decide (p.1 = k))).length

theorem alUpsert_alUpsert_same {α β : Type} [DecidableEq α]
    (m : List (α × β)) (k : α) (v : β) :
    alUpsert (alUpsert m k v) k v = alUpsert m k v := by
  induction m with
  | nil => simp [alUpsert]
  | cons p rest ih =>
    obtain ⟨k1, v1⟩ := p
    by_cases h : k1 = k
    · simp [alUpsert, h]
    · simp [alUpsert, h, ih]

theorem alGet_alUpsert_self {α β : Type} [DecidableEq α]
    (m : List (α × β)) (k : α) (v : β) :
    alGet (alUpsert m k v) k = some v := by
  induction m with
  | nil => simp [alUpsert, alGet]
  | cons p rest ih =>
    obtain ⟨k1, v1⟩ := p
    by_cases h : k1 = k
    · simp [alUpsert, h, alGet]
    · simp [alUpsert, h, alGet, ih]

theorem alGet_alUpsert_ne {α β : Type} [DecidableEq α]
    (m : List (α × β)) (k k2 : α) (v : β) (h : k2 ≠ k) :
    alGet (alUpsert m k v) k2 = alGet m k2 := by
  have hne : ¬(k = k2) := fun he => h he.symm
  induction m with
  | nil => simp [alUpsert, alGet, hne]
  | cons p rest ih =>
    obtain ⟨k1, v1⟩ := p
    by_cases h1 : k1 = k
    · subst h1
      simp [alUpsert, alGet, hne]
    · by_cases h2 : k1 = k2
      · subst h2
        simp [alUpsert, alGet, h1]
      · simp [alUpsert, alGet, h1, h2, ih]

theorem alGet_isSome_alUpsert {α β : Type} [DecidableEq α]
    (m : List (α × β)) (k k2 : α) (v : β) (h : (alGet m k2).isSome) :
    (alGet (alUpsert m k v) k2).isSome := by
  by_cases hk : k2 = k
  · subst hk; simp [alGet_alUpsert_self]
  · rwa [alGet_alUpsert_ne m k k2 v hk]

theorem mem_alUpsert {α β : Type} [DecidableEq α]
    (m : List (α × β)) (k : α) (v : β) (p : α × β)
    (h : p ∈ alUpsert m k v) : p ∈ m ∨ p = (k, v) := by
  induction m with
  | nil => simp [alUpsert] at h; simp [h]
  | cons q rest ih =>
    obtain ⟨k1, v1⟩ := q
    by_cases h1 : k1 = k
    · simp [alUpsert, h1] at h
      rcases h with h | h
      · right; simp [h]
      · left; simp [h]
    · simp [alUpsert, h1] at h
      rcases h with h | h
      · left; simp [h]
      · rcases ih h with h2 | h2
        · left; simp [h2]
        · right; exact h2

theorem alKeys_cons {α β : Type} (p : α × β) (rest : List (α × β)) :
    alKeys (p :: rest) = p.1 :: alKeys rest := rfl

theorem mem_alKeys {α β : Type} (m : List (α × β)) (k : α) :
    k ∈ alKeys m ↔ ∃ v, (k, v) ∈ m := by
  constructor
  · intro h
    obtain ⟨q, hq, hq1⟩ := List.mem_map.1 h
    exact ⟨q.2, by rwa [← hq1, Prod.mk.eta]⟩
  · rintro ⟨v, hv⟩
    exact List.mem_map.2 ⟨(k, v), hv, rfl⟩

theorem alKeys_nodup_alUpsert {α β : Type} [DecidableEq α]
    (m : List (α × β)) (k : α) (v : β) (h : (alKeys m).Nodup) :
    (alKeys (alUpsert m k v)).Nodup := by
  induction m with
  | nil => simp [alUpsert, alKeys]
  | cons p rest ih =>
    obtain ⟨k1, v1⟩ := p
    rw [alKeys_cons, List.nodup_cons] at h
    by_cases h1 : k1 = k
    · subst h1
      rw [show alUpsert ((k1, v1) :: rest) k1 v = (k1, v) :: rest by simp [alUpsert]]
      rw [alKeys_cons, List.nodup_cons]
      exact h
    · have hstep : alUpsert ((k1, v1) :: rest) k v = (k1, v1) :: alUpsert rest k v := by
        simp [alUpsert, h1]
      rw [hstep, alKeys_cons, List.nodup_cons]
      refine ⟨?_, ih h.2⟩
      intro hmem
      obtain ⟨w, hw⟩ := (mem_alKeys _ _).1 hmem
      rcases mem_alUpsert rest k v (k1, w) hw with h2 | h2
      · exact h.1 ((mem_alKeys _ _).2 ⟨w, h2⟩)
      · exact h1 (congrArg Prod.fst h2)

theorem alCountKey_eq_zero {α β : Type} [DecidableEq α]
    (m : List (α × β)) (k : α) (h : k ∉ alKeys m) : alCountKey m k = 0 := by
  induction m with
  | nil => simp [alCountKey]
  | cons p rest ih =>
    obtain ⟨k1, v1⟩ := p
    rw [alKeys_cons] at h
    have h1 : ¬(k1 = k) := fun he => h (by rw [he]; exact List.mem_cons_self _ _)
    have h2 : k ∉ alKeys rest := fun hm => h (List.mem_cons_of_mem _ hm)
    simp only [alCountKey, List.filter_cons, decide_eq_true_eq, h1, if_false]
    exact ih h2

theorem alCountKey_alUpsert_of_nodup {α β : Type} [DecidableEq α]
    (m : List (α × β)) (k : α) (v : β) (h : (alKeys m).Nodup) :
    alCountKey (alUpsert m k v) k = 1 := by
  induction m with
  | nil => simp [alUpsert, alCountKey]
  | cons p rest ih =>
    obtain ⟨k1, v1⟩ := p
    rw [alKeys_cons, List.nodup_cons] at h
    by_cases h1 : k1 = k
    · subst h1
      rw [show alUpsert ((k1, v1) :: rest) k1 v = (k1, v) :: rest by simp [alUpsert]]
      have hz : alCountKey rest k1 = 0 := alCountKey_eq_zero rest k1 h.1
      simp only [alCountKey, List.filter_cons, decide_eq_true_eq, if_pos rfl] at *
      simp [hz]
    · have hstep : alUpsert ((k1, v1) :: rest) k v = (k1, v1) :: alUpsert rest k v := by
        simp [alUpsert, h1]
      rw [hstep]
      simp only [alCountKey, List.filter_cons, decide_eq_true_eq, h1, if_false]
      exact ih h.2

/-! ## JSON-ish values and Python truthiness

Payload records arrive as JSON dicts.  Sub-objects that the program
treats opaquely (tags, user_fields, photo, domain names, thumbnails,
conditions, actions, restriction, execution) are modelled by `JVal`;
`json.dumps` is modelled as the identity on `JVal` (it is injective on
parsed JSON, so nothing the claims talk about is lost), with Python
`None` rendered as `JVal.jnull`.
-/

inductive JVal : Type where
  | jnull : JVal
  | jbool : Bool → JVal
  | jnum : Int → JVal
  | jstr : String → JVal
  | jarr : List JVal → JVal
  | jobj : List (String × JVal) → JVal

/-- Python truthiness of a JSON value: `None`, `False`, `0`, `""`, `[]`,
`{}` are falsy, everything else truthy. -/
def jTruthy : JVal → Bool
  | JVal.jnull => false
  | JVal.jbool b => b
  | JVal.jnum n => n ≠ 0
  | JVal.jstr s => ¬s.isEmpty
  | JVal.jarr xs => ¬xs.isEmpty
  | JVal.jobj fs => ¬fs.isEmpty

/-- Python `x or d` for an optional JSON field (`dict.get` returns `None`
when the key is missing). -/
def jOr (o : Option JVal) (d : JVal) : JVal :=
  match o with
  | some v => if jTruthy v then v else d
  | none => d

/-- Python `a or b` for optional strings (`None` and `""` are falsy). -/
def orElseStr (a b : Option String) : Option String :=
  match a with
  | some s => if s.isEmpty then b else some s
  | none => b

/-- Python `(x or "")` for an optional string. -/
def strOrEmpty (a : Option String) : String :=
  match a with
  | some s => s
  | none => ""

/-- ASCII lowercase of one character, as Python `str.lower` acts on the
ASCII status strings the remote emits. -/
def charLower (c : Char) : Char :=
  if 65 ≤ c.toNat ∧ c.toNat ≤ 90 then Char.ofNat (c.toNat + 32) else c

/-- Python `s.lower()` on ASCII strings (status values such as
`"open"`, `"closed"`). -/
def strLower (s : String) : String := String.mk (s.data.map charLower)

/-- Python `1 if x else 0` for an optional boolean field, as stored in the
`TINYINT(1)` columns.  A missing key (`None`) is falsy. -/
def pyBool (o : Option Bool) : Bool := o.getD false

/-! ## Helpers (backup.py lines 96-113) -/

/-- The characters the regex `[\\/:*?"<>|]+` of `safe_filename` replaces. -/
def illegalFilenameChar (c : Char) : Bool :=
  c = '\\' ∨ c = '/' ∨ c = ':' ∨ c = '*' ∨ c = '?' ∨ c = '"' ∨ c = '<' ∨ c = '>' ∨ c = '|'

/-- One pass of the regex substitution: each maximal run of illegal
characters becomes a single underscore.  The boolean flag records whether
the previous character was part of an illegal run. -/
def sanitizeChars : List Char → Bool → List Char
  | [], _ => []
  | c :: cs, prevIllegal =>
    if illegalFilenameChar c then
      if prevIllegal then sanitizeChars cs true
      else '_' :: sanitizeChars cs true
    else c :: sanitizeChars cs false

/-- Embeds `safe_filename` (backup.py lines 99-101): replace every run of
illegal filesystem characters with `_`, then cap the length at 180. -/
def safe_filename (name : String) : String :=
  String.mk ((sanitizeChars name.data false).take 180)

/-- Embeds `initial_start_time_epoch` (backup.py lines 103-105):
`int(time.time()) - max(BOOTSTRAP_HOURS * 3600, 120)`.  The current time
and the configured `ZENDESK_BOOTSTRAP_START_HOURS` are explicit inputs. -/
def initial_start_time_epoch (now bootstrapHours : Int) : Int :=
  now - max (bootstrapHours * 3600) 120

/-- Structural test that a string starts with a full ISO timestamp
`YYYY-MM-DD.HH:MM:SS` (separator `T` or space), the shape Zendesk emits
and `datetime.fromisoformat` accepts. -/
def isoShaped (cs : List Char) : Bool :=
  match cs with
  | y1 :: y2 :: y3 :: y4 :: s1 :: m1 :: m2 :: s2 :: d1 :: d2 :: t ::
      h1 :: h2 :: c1 :: n1 :: n2 :: c2 :: e1 :: e2 :: _ =>
    y1.isDigit ∧ y2.isDigit ∧ y3.isDigit ∧ y4.isDigit ∧ s1 = '-' ∧
    m1.isDigit ∧ m2.isDigit ∧ s2 = '-' ∧ d1.isDigit ∧ d2.isDigit ∧
    (t = 'T' ∨ t = ' ') ∧ h1.isDigit ∧ h2.isDigit ∧ c1 = ':' ∧
    n1.isDigit ∧ n2.isDigit ∧ c2 = ':' ∧ e1.isDigit ∧ e2.isDigit
  | _ => false

/-- Embeds `parse_dt` (backup.py lines 107-113).  `None` and `""` (falsy)
give `None`; otherwise the string is parsed as ISO-8601 (after replacing
`Z` with `+00:00`) and reformatted `"%Y-%m-%d %H:%M:%S"`, with `None` on
parse failure.  For full-precision ISO strings (the only shape the remote
API emits) `strftime` of the parsed value is exactly the first 19
characters with the `T` separator replaced by a space; shorter ISO forms
are conservatively mapped to the failure branch. -/
def parse_dt (s : Option String) : Option String :=
  match s with
  | none => none
  | some str =>
    if str.isEmpty then none
    else if isoShaped str.data then
      some (String.mk (((str.data.take 19).take 10) ++ ' ' :: (str.data.take 19).drop 11))
    else none

/-! ## The rate-limited fetcher (backup.py lines 91, 115-133)

`get_with_retry` is embedded over a scripted sequence of HTTP responses:
`responses i` is what the server would return to the `i`-th GET of this
call.  The returned value also carries the list of sleeps performed, in
order, so the backoff behaviour is part of the observable result.
Durations are in whole seconds (`Nat`); the concrete constants of the
source (`1.0`, `* 2`, `30.0`) are all integral. -/

structure HttpResponse : Type where
  status : Nat
  /-- The `Retry-After` header when present and non-empty, already read
  as a number the way `float(...)` would. -/
  retryAfterHeader : Option Nat
  /-- `resp.json()` when the body parses as JSON. -/
  bodyJson : Option JVal
  /-- `resp.text`. -/
  bodyText : String

/-- Embeds `RETRY_STATUS = {429, 500, 502, 503, 504}` (backup.py line 91). -/
def RETRY_STATUS : List Nat := [429, 500, 502, 503, 504]

/-- The outcome of `get_with_retry`: the 200 response (the caller then
takes `.json()` or the raw stream), a raised `RuntimeError` carrying
status and detail, or the raised `"exhausted retries"` error. -/
inductive FetchResult : Type where
  | success : HttpResponse → FetchResult
  | fatal : Nat → String → FetchResult
  | exhausted : FetchResult

/- Deterministic rendering of a JSON value, standing in for the string
interpolation of the parsed body into the raised error message. -/
mutual

def jvalRender : JVal → String
  | JVal.jnull => "null"
  | JVal.jbool b => if b then "true" else "false"
  | JVal.jnum n => toString n
  | JVal.jstr s => s
  | JVal.jarr xs => "[" ++ jvalRenderList xs ++ "]"
  | JVal.jobj fs => "\x7b" ++ jvalRenderFields fs ++ "\x7d"

def jvalRenderList : List JVal → String
  | [] => ""
  | x :: xs => jvalRender x ++ "," ++ jvalRenderList xs

def jvalRenderFields : List (String × JVal) → String
  | [] => ""
  | (k, v) :: fs => k ++ ":" ++ jvalRender v ++ "," ++ jvalRenderFields fs

end

/-- The error detail of the fatal branch (backup.py lines 128-132):
`resp.json()` if the body parses, else the text truncated to 300
(`resp.text[:300]`). -/
def errorDetail (r : HttpResponse) : String :=
  match r.bodyJson with
  | some j => jvalRender j
  | none => r.bodyText.take 300

/-- Embeds the `for _ in range(8)` loop of `get_with_retry` (backup.py
lines 116-133).  Arguments: response script, index of the next attempt,
remaining attempts, current backoff, sleeps performed so far. -/
def retryLoop (responses : Nat → HttpResponse) :
    Nat → Nat → Nat → List Nat → FetchResult × List Nat
  | _, 0, _, sleeps => (FetchResult.exhausted, sleeps)
  | i, fuel + 1, backoff, sleeps =>
    let r := responses i
    if r.status = 200 then (FetchResult.success r, sleeps)
    else if RETRY_STATUS.contains r.status then
      retryLoop responses (i + 1) fuel (min (backoff * 2) 30)
        (sleeps ++ [r.retryAfterHeader.getD backoff])
    else (FetchResult.fatal r.status (errorDetail r), sleeps)

/-- Embeds `get_with_retry` (backup.py lines 115-133): 8 attempts,
initial backoff 1. -/
def get_with_retry (responses : Nat → HttpResponse) : FetchResult × List Nat :=
  retryLoop responses 0 8 1 []

/-- The backoff value in effect at the `i`-th attempt: `1` initially,
then doubled and capped at `30` after every retryable response
(backup.py lines 116 and 126). -/
def backoffSeq : Nat → Nat
  | 0 => 1
  | i + 1 => min (backoffSeq i * 2) 30

/-! ## Entity payloads (the JSON dicts the API returns)

Each structure lists exactly the keys the program reads from the dict;
`Option` marks values `dict.get` may report as missing (`None`).  The
entity id is required: the source indexes it as `x["id"]` (and casts it
with `int(...)`) in the raw-snapshot call, so a payload without an id
crashes before any write. -/

structure UserPayload : Type where
  id : Int
  name : Option String
  email : Option String
  role : Option String
  role_type : Option Int
  active : Option Bool
  suspended : Option Bool
  organization_id : Option Int
  phone : Option String
  locale : Option String
  time_zone : Option String
  created_at : Option String
  updated_at : Option String
  last_login_at : Option String
  tags : Option JVal
  user_fields : Option JVal
  photo : Option JVal

structure OrgPayload : Type where
  id : Int
  name : Option String
  external_id : Option String
  group_id : Option Int
  details : Option String
  notes : Option String
  shared_tickets : Option Bool
  shared_comments : Option Bool
  domain_names : Option JVal
  tags : Option JVal
  organization_fields : Option JVal
  created_at : Option String
  updated_at : Option String

structure TicketPayload : Type where
  id : Int
  subject : Option String
  description : Option String
  status : Option String
  priority : Option String
  /-- the `"type"` key of the ticket dict -/
  ticket_type : Option String
  requester_id : Option Int
  assignee_id : Option Int
  organization_id : Option Int
  created_at : Option String
  updated_at : Option String
  due_at : Option String

structure AttachmentPayload : Type where
  id : Int
  file_name : Option String
  content_url : Option String
  content_type : Option String
  size : Option Int
  thumbnails : Option JVal
  created_at : Option String

structure CommentPayload : Type where
  id : Int
  author_id : Option Int
  public : Option Bool
  body : Option String
  created_at : Option String
  updated_at : Option String
  /-- `c.get("attachments") or []`, already defaulted to the empty list -/
  attachments : List AttachmentPayload

structure ViewPayload : Type where
  id : Int
  title : Option String
  description : Option String
  active : Option Bool
  position : Option Int
  /-- the `"default"` key -/
  default_flag : Option Bool
  restriction : Option JVal
  execution : Option JVal
  conditions : Option JVal
  created_at : Option String
  updated_at : Option String

structure TriggerPayload : Type where
  id : Int
  title : Option String
  description : Option String
  active : Option Bool
  position : Option Int
  category_id : Option String
  raw_title : Option String
  /-- the `"default"` key -/
  default_flag : Option Bool
  conditions : Option JVal
  actions : Option JVal
  created_at : Option String
  updated_at : Option String

/-- Trigger-category payload.  The id is numeric: the raw-snapshot call
applies `int(c["id"])` to it, while the typed table stores `str(c.get("id"))`. -/
structure TriggerCategoryPayload : Type where
  id : Int
  name : Option String
  position : Option Int
  created_at : Option String
  updated_at : Option String

structure MacroPayload : Type where
  id : Int
  title : Option String
  description : Option String
  active : Option Bool
  position : Option Int
  /-- the `"default"` key -/
  default_flag : Option Bool
  restriction : Option JVal
  actions : Option JVal
  created_at : Option String
  updated_at : Option String

/-- The verbatim payload stored in `raw_snapshots.payload_json`
(`json.dumps` of the full dict, modelled as the dict itself). -/
inductive Payload : Type where
  | userP : UserPayload → Payload
  | orgP : OrgPayload → Payload
  | ticketP : TicketPayload → Payload
  | commentP : CommentPayload → Payload
  | attachmentP : AttachmentPayload → Payload
  | viewP : ViewPayload → Payload
  | triggerP : TriggerPayload → Payload
  | trigCatP : TriggerCategoryPayload → Payload
  | macroP : MacroPayload → Payload

/-! ## Typed rows: the non-primary-key columns of each table, with the
exact values the `INSERT` statements compute from the payload. -/

structure UserRow : Type where
  name : Option String
  email : Option String
  role : Option String
  role_type : Option Int
  active : Bool
  suspended : Bool
  organization_id : Option Int
  phone : Option String
  locale : Option String
  time_zone : Option String
  created_at : Option String
  updated_at : Option String
  last_login_at : Option String
  tags_json : JVal
  user_fields_json : JVal
  photo_json : JVal

/-- The row `upsert_user` writes (backup.py lines 346-365). -/
def userRow (u : UserPayload) : UserRow :=
  { name := u.name, email := u.email, role := u.role, role_type := u.role_type
    active := pyBool u.active, suspended := pyBool u.suspended
    organization_id := u.organization_id, phone := u.phone, locale := u.locale
    time_zone := u.time_zone
    created_at := parse_dt u.created_at, updated_at := parse_dt u.updated_at
    last_login_at := parse_dt u.last_login_at
    tags_json := jOr u.tags (JVal.jarr [])
    user_fields_json := jOr u.user_fields (JVal.jobj [])
    photo_json := jOr u.photo (JVal.jobj []) }

structure OrgRow : Type where
  name : Option String
  external_id : Option String
  group_id : Option Int
  details : Option String
  notes : Option String
  shared_tickets : Bool
  shared_comments : Bool
  domain_names_json : JVal
  tags_json : JVal
  organization_fields_json : JVal
  created_at : Option String
  updated_at : Option String

/-- The row `upsert_org` writes (backup.py lines 368-387). -/
def orgRow (o : OrgPayload) : OrgRow :=
  { name := o.name, external_id := o.external_id, group_id := o.group_id
    details := o.details, notes := o.notes
    shared_tickets := pyBool o.shared_tickets
    shared_comments := pyBool o.shared_comments
    domain_names_json := jOr o.domain_names (JVal.jarr [])
    tags_json := jOr o.tags (JVal.jarr [])
    organization_fields_json := jOr o.organization_fields (JVal.jobj [])
    created_at := parse_dt o.created_at, updated_at := parse_dt o.updated_at }

structure TicketRow : Type where
  subject : Option String
  description : Option String
  status : Option String
  priority : Option String
  ticket_type : Option String
  requester_id : Option Int
  assignee_id : Option Int
  organization_id : Option Int
  created_at : Option String
  updated_at : Option String
  due_at : Option String

/-- The row `upsert_ticket` writes (backup.py lines 389-406). -/
def ticketRow (t : TicketPayload) : TicketRow :=
  { subject := t.subject, description := t.description, status := t.status
    priority := t.priority, ticket_type := t.ticket_type
    requester_id := t.requester_id, assignee_id := t.assignee_id
    organization_id := t.organization_id
    created_at := parse_dt t.created_at, updated_at := parse_dt t.updated_at
    due_at := parse_dt t.due_at }

structure CommentRow : Type where
  ticket_id : Int
  author_id : Option Int
  public : Bool
  body : Option String
  created_at : Option String
  updated_at : Option String

/-- The row `upsert_comment` writes (backup.py lines 416-428); the
`updated_at` column falls back to `created_at` when missing. -/
def commentRow (ticket_id : Int) (c : CommentPayload) : CommentRow :=
  { ticket_id := ticket_id, author_id := c.author_id, public := pyBool c.public
    body := c.body, created_at := parse_dt c.created_at
    updated_at := parse_dt (orElseStr c.updated_at c.created_at) }

structure AttachmentRow : Type where
  ticket_id : Int
  comment_id : Option Int
  file_name : Option String
  content_url : Option String
  local_path : Option String
  content_type : Option String
  size : Option Int
  thumbnails_json : JVal
  created_at : Option String

/-- The row `upsert_attachment` writes (backup.py lines 431-445). -/
def attachmentRow (ticket_id : Int) (comment_id : Option Int)
    (a : AttachmentPayload) (local_path : Option String) : AttachmentRow :=
  { ticket_id := ticket_id, comment_id := comment_id, file_name := a.file_name
    content_url := a.content_url, local_path := local_path
    content_type := a.content_type, size := a.size
    thumbnails_json := jOr a.thumbnails (JVal.jarr [])
    created_at := parse_dt a.created_at }

structure ViewRow : Type where
  title : Option String
  description : Option String
  active : Bool
  position : Option Int
  default_view : Bool
  restriction_json : JVal
  execution_json : JVal
  conditions_json : JVal
  created_at : Option String
  updated_at : Option String

/-- The row `upsert_view` writes (backup.py lines 638-655); the JSON
columns are dumped without an `or` default, so `None` renders as `null`. -/
def viewRow (v : ViewPayload) : ViewRow :=
  { title := v.title, description := v.description, active := pyBool v.active
    position := v.position, default_view := pyBool v.default_flag
    restriction_json := v.restriction.getD JVal.jnull
    execution_json := v.execution.getD JVal.jnull
    conditions_json := v.conditions.getD JVal.jnull
    created_at := parse_dt v.created_at, updated_at := parse_dt v.updated_at }

structure TriggerRow : Type where
  title : Option String
  description : Option String
  active : Bool
  position : Option Int
  category_id : Option String
  raw_title : Option String
  default_trigger : Bool
  conditions_json : JVal
  actions_json : JVal
  created_at : Option String
  updated_at : Option String

/-- The row `upsert_trigger` writes (backup.py lines 670-688). -/
def triggerRow (t : TriggerPayload) : TriggerRow :=
  { title := t.title, description := t.description, active := pyBool t.active
    position := t.position, category_id := t.category_id, raw_title := t.raw_title
    default_trigger := pyBool t.default_flag
    conditions_json := jOr t.conditions (JVal.jobj [])
    actions_json := jOr t.actions (JVal.jarr [])
    created_at := parse_dt t.created_at, updated_at := parse_dt t.updated_at }

structure TriggerCategoryRow : Type where
  name : Option String
  position : Option Int
  created_at : Option String
  updated_at : Option String

/-- The row `upsert_trigger_category` writes (backup.py lines 703-713). -/
def triggerCategoryRow (c : TriggerCategoryPayload) : TriggerCategoryRow :=
  { name := c.name, position := c.position
    created_at := parse_dt c.created_at, updated_at := parse_dt c.updated_at }

structure MacroRow : Type where
  title : Option String
  description : Option String
  active : Bool
  position : Option Int
  default_macro : Bool
  restriction_json : JVal
  actions_json : JVal
  created_at : Option String
  updated_at : Option String

/-- The row written for a macro (backup.py lines 730-745). -/
def macroRow (m : MacroPayload) : MacroRow :=
  { title := m.title, description := m.description, active := pyBool m.active
    position := m.position, default_macro := pyBool m.default_flag
    restriction_json := m.restriction.getD JVal.jnull
    actions_json := jOr m.actions (JVal.jarr [])
    created_at := parse_dt m.created_at, updated_at := parse_dt m.updated_at }

/-- A `raw_snapshots` row: `(updated_at, payload_json)` keyed by
`(resource, entity_id)` (backup.py lines 169-175, 333-341). -/
structure RawRow : Type where
  updated_at : Option String
  payload_json : Payload

/-! ## The relational store (the MySQL database of backup.py lines 159-305) -/

structure Store : Type where
  sync_state : List (String × String)
  raw_snapshots : List ((String × Int) × RawRow)
  users : List (Int × UserRow)
  organizations : List (Int × OrgRow)
  tickets : List (Int × TicketRow)
  ticket_comments : List (Int × CommentRow)
  attachments : List (Int × AttachmentRow)
  views : List (Int × ViewRow)
  triggers : List (Int × TriggerRow)
  trigger_categories : List (String × TriggerCategoryRow)
  macros : List (Int × MacroRow)

def emptyStore : Store :=
  { sync_state := [], raw_snapshots := [], users := [], organizations := []
    tickets := [], ticket_comments := [], attachments := [], views := []
    triggers := [], trigger_categories := [], macros := [] }

/-- Embeds `get_cursor_val` (backup.py lines 316-321). -/
def get_cursor_val (s : Store) (resource : String) : Option String :=
  alGet s.sync_state resource

/-- Embeds `set_cursor_val` (backup.py lines 323-331):
`INSERT ... ON DUPLICATE KEY UPDATE` on `sync_state`. -/
def set_cursor_val (s : Store) (resource token : String) : Store :=
  { s with sync_state := alUpsert s.sync_state resource token }

/-- Embeds `upsert_raw` (backup.py lines 333-341). -/
def upsert_raw (s : Store) (resource : String) (entity_id : Int)
    (updated_at : Option String) (payload : Payload) : Store :=
  let row : RawRow := { updated_at := parse_dt updated_at, payload_json := payload }
  { s with raw_snapshots := alUpsert s.raw_snapshots (resource, entity_id) row }

/-- Embeds `upsert_user` (backup.py lines 346-366): typed insert-or-replace
followed by the raw-snapshot upsert of the same entity. -/
def upsert_user (s : Store) (u : UserPayload) : Store :=
  let s1 := { s with users := alUpsert s.users u.id (userRow u) }
  upsert_raw s1 "users" u.id u.updated_at (Payload.userP u)

/-- Embeds `upsert_org` (backup.py lines 368-387). -/
def upsert_org (s : Store) (o : OrgPayload) : Store :=
  let s1 := { s with organizations := alUpsert s.organizations o.id (orgRow o) }
  upsert_raw s1 "organizations" o.id o.updated_at (Payload.orgP o)

/-- Embeds `upsert_ticket` (backup.py lines 389-406). -/
def upsert_ticket (s : Store) (t : TicketPayload) : Store :=
  let s1 := { s with tickets := alUpsert s.tickets t.id (ticketRow t) }
  upsert_raw s1 "tickets" t.id t.updated_at (Payload.ticketP t)

/-- Embeds `delete_ticket` (backup.py lines 408-414): deletes the
attachments and comments carrying this `ticket_id` and the ticket row. -/
def delete_ticket (s : Store) (ticket_id : Int) : Store :=
  { s with
    attachments := s.attachments.filter (fun p => decide (p.2.ticket_id ≠ ticket_id))
    ticket_comments := s.ticket_comments.filter (fun p => decide (p.2.ticket_id ≠ ticket_id))
    tickets := s.tickets.filter (fun p => decide (p.1 ≠ ticket_id)) }

/-- Embeds `upsert_comment` (backup.py lines 416-429); the raw snapshot
is recorded under resource `"comments"` with `updated_at or created_at`. -/
def upsert_comment (s : Store) (ticket_id : Int) (c : CommentPayload) : Store :=
  let s1 := { s with ticket_comments := alUpsert s.ticket_comments c.id (commentRow ticket_id c) }
  upsert_raw s1 "comments" c.id (orElseStr c.updated_at c.created_at) (Payload.commentP c)

/-- Embeds `upsert_attachment` (backup.py lines 431-446). -/
def upsert_attachment (s : Store) (ticket_id : Int) (comment_id : Option Int)
    (a : AttachmentPayload) (local_path : Option String) : Store :=
  let row := attachmentRow ticket_id comment_id a local_path
  let s1 := { s with attachments := alUpsert s.attachments a.id row }
  upsert_raw s1 "attachments" a.id a.created_at (Payload.attachmentP a)

/-- Embeds `upsert_view` (backup.py lines 638-655). -/
def upsert_view (s : Store) (v : ViewPayload) : Store :=
  let s1 := { s with views := alUpsert s.views v.id (viewRow v) }
  upsert_raw s1 "views" v.id v.updated_at (Payload.viewP v)

/-- Embeds `upsert_trigger` (backup.py lines 670-688). -/
def upsert_trigger (s : Store) (t : TriggerPayload) : Store :=
  let s1 := { s with triggers := alUpsert s.triggers t.id (triggerRow t) }
  upsert_raw s1 "triggers" t.id t.updated_at (Payload.triggerP t)

/-- Embeds `upsert_trigger_category` (backup.py lines 703-713): the typed
table is keyed by `str(c.get("id"))`, the raw snapshot by `int(c["id"])`. -/
def upsert_trigger_category (s : Store) (c : TriggerCategoryPayload) : Store :=
  let s1 := { s with trigger_categories := alUpsert s.trigger_categories (toString c.id) (triggerCategoryRow c) }
  upsert_raw s1 "trigger_categories" c.id c.updated_at (Payload.trigCatP c)

/-- Embeds the macro upsert (backup.py lines 730-745). -/
def upsert_macro (s : Store) (m : MacroPayload) : Store :=
  let s1 := { s with macros := alUpsert s.macros m.id (macroRow m) }
  upsert_raw s1 "macros" m.id m.updated_at (Payload.macroP m)

/-! ## Configuration toggles (backup.py lines 64-81) -/

structure SyncConfig : Type where
  /-- `CLOSED_TICKETS_ONLY` -/
  closed_tickets_only : Bool
  /-- `USE_TICKET_EVENTS_FOR_COMMENTS` -/
  use_ticket_events_for_comments : Bool
  /-- `PRUNE_REOPENED_FROM_DB` -/
  prune_reopened_from_db : Bool
  /-- `DOWNLOAD_ATTACHMENTS` -/
  download_attachments : Bool
  /-- `ATTACHMENTS_DIR` -/
  attachments_dir : String
  /-- `SKIP_ORGANIZATIONS` -/
  skip_organizations : Bool

/-! ## Attachment materializer (backup.py lines 451-481)

The local disk is a map from absolute path to file size; directories are
implicit in paths, so `ensure_dir` is a no-op of the model and
`target.resolve()` is the identity on the already-absolute target path.
The binary transfer (`get_with_retry(url, stream=True)` plus the chunked
write) is scripted by a `Transfer` outcome; a failed transfer may leave a
partially written file behind, exactly as an exception mid-loop does. -/

abbrev FileSystem := List (String × Nat)

inductive Transfer : Type where
  /-- the stream completed; the written file has this many bytes -/
  | ok : Nat → Transfer
  /-- an exception was raised during the transfer; the file holds the
  bytes already flushed, or does not exist if the failure preceded the
  `open` -/
  | failed : Option Nat → Transfer

/-- The deterministic target path
`ATTACHMENTS_DIR/<ticket_id>/<attachment_id>__<safe_filename>`
(backup.py lines 462-467); an empty or missing `file_name` falls back to
`attachment_<id>`. -/
def attachmentTargetPath (dir : String) (ticket_id : Int) (att : AttachmentPayload) : String :=
  let rid := toString att.id
  let base := match att.file_name with
    | some s => if s.isEmpty then "attachment_" ++ rid else s
    | none => "attachment_" ++ rid
  dir ++ "/" ++ toString ticket_id ++ "/" ++ rid ++ "__" ++ safe_filename base

/-- Embeds `download_attachment` (backup.py lines 451-481).  Returns the
local path (or `none`), the resulting filesystem, and the number of
network transfers performed (0 or 1).  `comment_id` is accepted but,
as in the source, unused. -/
def download_attachment (cfg : SyncConfig) (fs : FileSystem) (ticket_id : Int)
    (comment_id : Option Int) (att : AttachmentPayload) (outcome : Transfer) :
    Option String × FileSystem × Nat :=
  if ¬cfg.download_attachments then (none, fs, 0)
  else if (strOrEmpty att.content_url).isEmpty then (none, fs, 0)
  else
    let target := attachmentTargetPath cfg.attachments_dir ticket_id att
    let attempt : Option String × FileSystem × Nat :=
      match outcome with
      | Transfer.ok sz => (some target, alUpsert fs target sz, 1)
      | Transfer.failed partialBytes =>
        match partialBytes with
        | some sz => (none, alUpsert fs target sz, 1)
        | none => (none, fs, 1)
    match alGet fs target with
    | some sz => if 0 < sz then (some target, fs, 0) else attempt
    | none => attempt

/-- The per-attachment step of the ticket coordinator (backup.py lines
571-573): materialize, then upsert the attachment row with whatever
local path (possibly `none`) came back. -/
def processAttachment (cfg : SyncConfig) (s : Store) (fs : FileSystem)
    (ticket_id : Int) (comment_id : Int) (a : AttachmentPayload)
    (outcome : Transfer) : Store × FileSystem :=
  let r := download_attachment cfg fs ticket_id (some comment_id) a outcome
  (upsert_attachment s ticket_id (some comment_id) a r.1, r.2.1)

/-! ## Sync coordinators

Pages are scripted: a run is given the sequence of pages the remote
would serve.  Each coordinator's per-page step returns the new store and
whether the loop would fetch another page; the page-list runner chains
steps exactly as the `for`/`while` loops do.  `download_attachment` only
reads and writes the filesystem, never the store, so inside the
coordinators the materializer is passed as an oracle
`dl ticket_id comment_id attachment ↦ local path or none`. -/

structure UsersPage : Type where
  users : List UserPayload
  after_cursor : Option String
  end_of_stream : Bool
  /-- the `after_url`/`links.next` the cursor iterator would follow -/
  after_url : Option String

/-- One iteration of the `sync_users` page loop (backup.py lines 496-503):
upsert every user, persist `after_cursor` when truthy, stop on
`end_of_stream`. -/
def sync_users_step (s : Store) (p : UsersPage) : Store × Bool :=
  let s1 := p.users.foldl upsert_user s
  let s2 := match p.after_cursor with
    | some ac => if ac.isEmpty then s1 else set_cursor_val s1 "users" ac
    | none => s1
  (s2, ¬p.end_of_stream)

/-- The `sync_users` page loop over a scripted page sequence; the
iterator stops after a page with no `after_url` (backup.py lines 144-151). -/
def sync_users_pages (s : Store) : List UsersPage → Store
  | [] => s
  | p :: rest =>
    let r := sync_users_step s p
    if r.2 ∧ p.after_url.isSome then sync_users_pages r.1 rest else r.1

/-- The first-request parameter of `sync_users` (backup.py lines 488-493):
resume from the persisted cursor when one is present (and truthy), else
bootstrap from the computed start time. -/
inductive CursorStart : Type where
  | cursor : String → CursorStart
  | start_time : Int → CursorStart

def sync_users_request (s : Store) (now bootstrapHours : Int) : CursorStart :=
  match get_cursor_val s "users" with
  | some last =>
    if last.isEmpty then CursorStart.start_time (initial_start_time_epoch now bootstrapHours)
    else CursorStart.cursor last
  | none => CursorStart.start_time (initial_start_time_epoch now bootstrapHours)

structure OrgsPage : Type where
  organizations : List OrgPayload
  end_time : Option Int
  next_page : Option String

/-- One iteration of the `sync_organizations` while loop (backup.py lines
518-533): upsert every organization, persist `end_time` when truthy,
continue while a `next_page` URL exists. -/
def sync_organizations_step (s : Store) (p : OrgsPage) : Store × Bool :=
  let s1 := p.organizations.foldl upsert_org s
  let s2 := match p.end_time with
    | some e => if e = 0 then s1 else set_cursor_val s1 "organizations" (toString e)
    | none => s1
  (s2, p.next_page.isSome)

def sync_organizations_pages (s : Store) : List OrgsPage → Store
  | [] => s
  | p :: rest =>
    let r := sync_organizations_step s p
    if r.2 then sync_organizations_pages r.1 rest else r.1

/-- Embeds `sync_organizations` (backup.py lines 506-535), including the
`SKIP_ORGANIZATIONS` no-op. -/
def sync_organizations (cfg : SyncConfig) (s : Store) (pages : List OrgsPage) : Store :=
  if cfg.skip_organizations then s else sync_organizations_pages s pages

structure TicketsPage : Type where
  tickets : List TicketPayload
  after_cursor : Option String
  end_of_stream : Bool
  after_url : Option String

/-- The per-ticket body of `sync_tickets_comments_attachments` (backup.py
lines 555-573).  `commentsOf` scripts the per-ticket comment sub-fetch
(all pages of `/tickets/{id}/comments.json` flattened, in order);
`dl` is the materializer oracle. -/
def process_ticket (cfg : SyncConfig) (commentsOf : Int → List CommentPayload)
    (dl : Int → Int → AttachmentPayload → Option String)
    (s : Store) (t : TicketPayload) : Store :=
  let status := strLower (strOrEmpty t.status)
  let isClosed := status = "closed"
  if cfg.closed_tickets_only ∧ ¬isClosed then
    if cfg.prune_reopened_from_db then delete_ticket s t.id else s
  else
    let s1 := upsert_ticket s t
    if ¬cfg.use_ticket_events_for_comments then
      (commentsOf t.id).foldl (fun s2 c =>
        let s3 := upsert_comment s2 t.id c
        c.attachments.foldl
          (fun s4 a => upsert_attachment s4 t.id (some c.id) a (dl t.id c.id a)) s3) s1
    else s1

/-- One iteration of the tickets page loop (backup.py lines 554-579). -/
def sync_tickets_step (cfg : SyncConfig) (commentsOf : Int → List CommentPayload)
    (dl : Int → Int → AttachmentPayload → Option String)
    (s : Store) (p : TicketsPage) : Store × Bool :=
  let s1 := p.tickets.foldl (process_ticket cfg commentsOf dl) s
  let s2 := match p.after_cursor with
    | some ac => if ac.isEmpty then s1 else set_cursor_val s1 "tickets" ac
    | none => s1
  (s2, ¬p.end_of_stream)

def sync_tickets_pages (cfg : SyncConfig) (commentsOf : Int → List CommentPayload)
    (dl : Int → Int → AttachmentPayload → Option String)
    (s : Store) : List TicketsPage → Store
  | [] => s
  | p :: rest =>
    let r := sync_tickets_step cfg commentsOf dl s p
    if r.2 ∧ p.after_url.isSome then sync_tickets_pages cfg commentsOf dl r.1 rest else r.1

/-- The tickets a run observes: every ticket of every page up to and
including the page that carries `end_of_stream` (or has no further
page link). -/
def observed_tickets : List TicketsPage → List TicketPayload
  | [] => []
  | p :: rest =>
    p.tickets ++ (if ¬p.end_of_stream ∧ p.after_url.isSome then observed_tickets rest else [])

structure ChildEventPayload : Type where
  id : Int
  event_type : Option String
  /-- the `"type"` key -/
  type_key : Option String
  author_id : Option Int
  /-- `ce.get("public", False)` -/
  public : Bool
  body : Option String
  created_at : Option String
  /-- `ce.get("attachments") or []`, already defaulted -/
  attachments : List AttachmentPayload

structure TicketEventPayload : Type where
  ticket_id : Int
  /-- `ev.get("child_events") or []`, already defaulted -/
  child_events : List ChildEventPayload

structure EventsPage : Type where
  ticket_events : List TicketEventPayload
  next_page : Option String
  end_time : Option Int

/-- The comment dict synthesized from a comment-type child event
(backup.py lines 599-607): `updated_at` is a copy of `created_at`. -/
def comment_of_child_event (ce : ChildEventPayload) : CommentPayload :=
  { id := ce.id, author_id := ce.author_id, public := some ce.public
    body := ce.body, created_at := ce.created_at, updated_at := ce.created_at
    attachments := ce.attachments }

/-- The per-event body of `sync_ticket_events_for_comments` (backup.py
lines 591-611).  `statusOf` scripts the per-ticket status lookup
(`GET /tickets/{id}.json` → `ticket.status`). -/
def process_ticket_event (cfg : SyncConfig) (statusOf : Int → Option String)
    (dl : Int → Int → AttachmentPayload → Option String)
    (s : Store) (ev : TicketEventPayload) : Store :=
  let tid := ev.ticket_id
  if cfg.closed_tickets_only ∧ ¬(strLower (strOrEmpty (statusOf tid)) = "closed") then s
  else
    ev.child_events.foldl (fun s1 ce =>
      if orElseStr ce.event_type ce.type_key = some "Comment" then
        let c := comment_of_child_event ce
        let s2 := upsert_comment s1 tid c
        ce.attachments.foldl
          (fun s3 a => upsert_attachment s3 tid (some ce.id) a (dl tid ce.id a)) s2
      else s1) s

/-- One iteration of the ticket-events while loop (backup.py lines
589-620): process the events of the page; if a `next_page` URL exists,
continue WITHOUT touching the checkpoint; only on the final page is
`end_time` (when truthy) persisted. -/
def sync_ticket_events_step (cfg : SyncConfig) (statusOf : Int → Option String)
    (dl : Int → Int → AttachmentPayload → Option String)
    (s : Store) (p : EventsPage) : Store × Bool :=
  let s1 := p.ticket_events.foldl (process_ticket_event cfg statusOf dl) s
  match p.next_page with
  | some _ => (s1, true)
  | none =>
    let s2 := match p.end_time with
      | some e => if e = 0 then s1 else set_cursor_val s1 "ticket_events" (toString e)
      | none => s1
    (s2, false)

def sync_ticket_events_pages (cfg : SyncConfig) (statusOf : Int → Option String)
    (dl : Int → Int → AttachmentPayload → Option String)
    (s : Store) : List EventsPage → Store
  | [] => s
  | p :: rest =>
    let r := sync_ticket_events_step cfg statusOf dl s p
    if r.2 then sync_ticket_events_pages cfg statusOf dl r.1 rest else r.1

/-! ## Example inputs used by the concrete witnesses -/

def uEx : UserPayload :=
  { id := 1, name := some "Ada", email := none, role := none, role_type := none
    active := some true, suspended := none, organization_id := none, phone := none
    locale := none, time_zone := none, created_at := none, updated_at := none
    last_login_at := none, tags := none, user_fields := none, photo := none }

def oEx : OrgPayload :=
  { id := 2, name := some "Acme", external_id := none, group_id := none
    details := none, notes := none, shared_tickets := none, shared_comments := none
    domain_names := none, tags := none, organization_fields := none
    created_at := none, updated_at := none }

def tExOpen : TicketPayload :=
  { id := 42, subject := some "help", description := none, status := some "open"
    priority := none, ticket_type := none, requester_id := none, assignee_id := none
    organization_id := none, created_at := none, updated_at := none, due_at := none }

def tExClosed : TicketPayload :=
  { id := 42, subject := some "help", description := none, status := some "closed"
    priority := none, ticket_type := none, requester_id := none, assignee_id := none
    organization_id := none, created_at := none, updated_at := none, due_at := none }

def cEx : CommentPayload :=
  { id := 5, author_id := none, public := some true, body := some "hi"
    created_at := none, updated_at := none, attachments := [] }

def aEx : AttachmentPayload :=
  { id := 7, file_name := none, content_url := some "https://x/file"
    content_type := none, size := none, thumbnails := none, created_at := none }

def vEx : ViewPayload :=
  { id := 8, title := none, description := none, active := none, position := none
    default_flag := none, restriction := none, execution := none, conditions := none
    created_at := none, updated_at := none }

def trEx : TriggerPayload :=
  { id := 9, title := none, description := none, active := none, position := none
    category_id := none, raw_title := none, default_flag := none, conditions := none
    actions := none, created_at := none, updated_at := none }

def tcEx : TriggerCategoryPayload :=
  { id := 10, name := none, position := none, created_at := none, updated_at := none }

def mEx : MacroPayload :=
  { id := 11, title := none, description := none, active := none, position := none
    default_flag := none, restriction := none, actions := none
    created_at := none, updated_at := none }

def cfgEx : SyncConfig :=
  { closed_tickets_only := true, use_ticket_events_for_comments := false
    prune_reopened_from_db := true, download_attachments := true
    attachments_dir := "./attachments", skip_organizations := false }

/-! ## C4 -/

/-- C4: with no prior checkpoint, the bootstrap start time equals the
current time minus the configured lookback (`BOOTSTRAP_HOURS * 3600`),
floored so that it is always at least 120 seconds in the past — for
every configured lookback, including ones below 2 minutes. -/
theorem c4_bootstrap_floor (now bootstrapHours : Int) :
    initial_start_time_epoch now bootstrapHours = now - max (bootstrapHours * 3600) 120 ∧
    120 ≤ now - initial_start_time_epoch now bootstrapHours ∧
    (120 ≤ bootstrapHours * 3600 →
      initial_start_time_epoch now bootstrapHours = now - bootstrapHours * 3600) ∧
    (bootstrapHours * 3600 < 120 →
      initial_start_time_epoch now bootstrapHours = now - 120) := by
  unfold initial_start_time_epoch
  omega

/-- Witness for C4 at `now = 1000` with a zero-hour lookback (smaller
than 2 minutes): the floor applies. -/
theorem c4_bootstrap_floor_witness :
    ((0 : Int) * 3600 < 120 ∧ initial_start_time_epoch 1000 0 = 1000 - 120) ∧
    120 ≤ 1000 - initial_start_time_epoch 1000 0 :=
  ⟨⟨by decide, (c4_bootstrap_floor 1000 0).2.2.2 (by decide)⟩,
   (c4_bootstrap_floor 1000 0).2.1⟩

/-! ## C10 -/

/-- C10: `delete_ticket` removes rows only from `tickets`,
`ticket_comments` and `attachments` (exactly the rows belonging to the
given ticket id, by filtering); every other table — in particular the
`raw_snapshots` mirror — is left unchanged. -/
theorem c10_delete_ticket_frame (s : Store) (tid : Int) :
    (delete_ticket s tid).raw_snapshots = s.raw_snapshots ∧
    (delete_ticket s tid).sync_state = s.sync_state ∧
    (delete_ticket s tid).users = s.users ∧
    (delete_ticket s tid).organizations = s.organizations ∧
    (delete_ticket s tid).views = s.views ∧
    (delete_ticket s tid).triggers = s.triggers ∧
    (delete_ticket s tid).trigger_categories = s.trigger_categories ∧
    (delete_ticket s tid).macros = s.macros ∧
    (delete_ticket s tid).tickets = s.tickets.filter (fun p => decide (p.1 ≠ tid)) ∧
    (delete_ticket s tid).ticket_comments =
      s.ticket_comments.filter (fun p => decide (p.2.ticket_id ≠ tid)) ∧
    (delete_ticket s tid).attachments =
      s.attachments.filter (fun p => decide (p.2.ticket_id ≠ tid)) :=
  ⟨rfl, rfl, rfl, rfl, rfl, rfl, rfl, rfl, rfl, rfl, rfl⟩

/-! ## C7 -/

/-- C7: every typed row upsert updates, in the same logical step, the
raw-snapshot mirror under the corresponding resource name and entity id
— for all nine entity types; no typed upsert exists without its paired
raw upsert. -/
theorem c7_typed_raw_pairing (s : Store) (u : UserPayload) (o : OrgPayload)
    (t : TicketPayload) (tid : Int) (c : CommentPayload) (cid : Option Int)
    (a : AttachmentPayload) (lp : Option String) (v : ViewPayload)
    (tr : TriggerPayload) (tc : TriggerCategoryPayload) (m : MacroPayload) :
    ((upsert_user s u).users = alUpsert s.users u.id (userRow u) ∧
      (upsert_user s u).raw_snapshots = alUpsert s.raw_snapshots ("users", u.id)
        { updated_at := parse_dt u.updated_at, payload_json := Payload.userP u }) ∧
    ((upsert_org s o).organizations = alUpsert s.organizations o.id (orgRow o) ∧
      (upsert_org s o).raw_snapshots = alUpsert s.raw_snapshots ("organizations", o.id)
        { updated_at := parse_dt o.updated_at, payload_json := Payload.orgP o }) ∧
    ((upsert_ticket s t).tickets = alUpsert s.tickets t.id (ticketRow t) ∧
      (upsert_ticket s t).raw_snapshots = alUpsert s.raw_snapshots ("tickets", t.id)
        { updated_at := parse_dt t.updated_at, payload_json := Payload.ticketP t }) ∧
    ((upsert_comment s tid c).ticket_comments =
        alUpsert s.ticket_comments c.id (commentRow tid c) ∧
      (upsert_comment s tid c).raw_snapshots = alUpsert s.raw_snapshots ("comments", c.id)
        { updated_at := parse_dt (orElseStr c.updated_at c.created_at)
          payload_json := Payload.commentP c }) ∧
    ((upsert_attachment s tid cid a lp).attachments =
        alUpsert s.attachments a.id (attachmentRow tid cid a lp) ∧
      (upsert_attachment s tid cid a lp).raw_snapshots =
        alUpsert s.raw_snapshots ("attachments", a.id)
          { updated_at := parse_dt a.created_at, payload_json := Payload.attachmentP a }) ∧
    ((upsert_view s v).views = alUpsert s.views v.id (viewRow v) ∧
      (upsert_view s v).raw_snapshots = alUpsert s.raw_snapshots ("views", v.id)
        { updated_at := parse_dt v.updated_at, payload_json := Payload.viewP v }) ∧
    ((upsert_trigger s tr).triggers = alUpsert s.triggers tr.id (triggerRow tr) ∧
      (upsert_trigger s tr).raw_snapshots = alUpsert s.raw_snapshots ("triggers", tr.id)
        { updated_at := parse_dt tr.updated_at, payload_json := Payload.triggerP tr }) ∧
    ((upsert_trigger_category s tc).trigger_categories =
        alUpsert s.trigger_categories (toString tc.id) (triggerCategoryRow tc) ∧
      (upsert_trigger_category s tc).raw_snapshots =
        alUpsert s.raw_snapshots ("trigger_categories", tc.id)
          { updated_at := parse_dt tc.updated_at, payload_json := Payload.trigCatP tc }) ∧
    (( upsert_macro s m).macros = alUpsert s.macros m.id (macroRow m) ∧
      ( upsert_macro s m).raw_snapshots = alUpsert s.raw_snapshots ("macros", m.id)
        { updated_at := parse_dt m.updated_at, payload_json := Payload.macroP m }) :=
  ⟨⟨rfl, rfl⟩, ⟨rfl, rfl⟩, ⟨rfl, rfl⟩, ⟨rfl, rfl⟩, ⟨rfl, rfl⟩, ⟨rfl, rfl⟩,
   ⟨rfl, rfl⟩, ⟨rfl, rfl⟩, ⟨rfl, rfl⟩⟩

/-! ## C5 -/

/-- C5: starting from a store with no users checkpoint, processing a
first page with `after_cursor = "C1"`, `end_of_stream = false` sets the
users checkpoint to `"C1"`; a following page with `end_of_stream = true`
ends the run with the checkpoint still `"C1"`. -/
theorem c5_users_cursor_scenario :
    get_cursor_val emptyStore "users" = none ∧
    get_cursor_val
      (sync_users_step emptyStore
        { users := [], after_cursor := some "C1", end_of_stream := false
          after_url := some "https://next" }).1 "users" = some "C1" ∧
    (sync_users_step
      (sync_users_step emptyStore
        { users := [], after_cursor := some "C1", end_of_stream := false
          after_url := some "https://next" }).1
      { users := [], after_cursor := none, end_of_stream := true
        after_url := none }).2 = false ∧
    get_cursor_val
      (sync_users_pages emptyStore
        [{ users := [], after_cursor := some "C1", end_of_stream := false
           after_url := some "https://next" },
         { users := [], after_cursor := none, end_of_stream := true
           after_url := none }]) "users" = some "C1" :=
  ⟨rfl, rfl, by decide, rfl⟩

/-! ## C9 -/

/-- C9: when downloads are enabled and a content URL is present,
materializing an attachment whose target file already exists non-empty
performs zero network transfers, leaves the filesystem untouched and
returns the deterministic target path (so a second materialization after
a successful first one returns the same path); downloads disabled or a
missing/empty content URL yield `none` with no side effect; every
successful call returns exactly the deterministic target path. -/
theorem c9_materialize_idempotent (cfg : SyncConfig) (fs : FileSystem)
    (tid : Int) (cid : Option Int) (att : AttachmentPayload) (outcome : Transfer) :
    (cfg.download_attachments = false →
      download_attachment cfg fs tid cid att outcome = (none, fs, 0)) ∧
    ((strOrEmpty att.content_url).isEmpty = true →
      download_attachment cfg fs tid cid att outcome = (none, fs, 0)) ∧
    (cfg.download_attachments = true →
      (strOrEmpty att.content_url).isEmpty = false →
      ∀ sz, alGet fs (attachmentTargetPath cfg.attachments_dir tid att) = some sz →
      0 < sz →
      download_attachment cfg fs tid cid att outcome =
        (some (attachmentTargetPath cfg.attachments_dir tid att), fs, 0)) ∧
    (∀ p fs2 n, download_attachment cfg fs tid cid att outcome = (some p, fs2, n) →
      p = attachmentTargetPath cfg.attachments_dir tid att) := by
  refine ⟨?_, ?_, ?_, ?_⟩
  · intro h
    simp [download_attachment, h]
  · intro h
    by_cases hd : cfg.download_attachments
    · simp [download_attachment, hd, h]
    · simp [download_attachment, hd]
  · intro hd hu sz hget hsz
    simp [download_attachment, hd, hu, hget, hsz]
  · intro p fs2 n h
    by_cases hd : cfg.download_attachments
    · by_cases hu : (strOrEmpty att.content_url).isEmpty
      · simp [download_attachment, hd, hu] at h
      · rcases hga : alGet fs (attachmentTargetPath cfg.attachments_dir tid att)
          with _ | sz
        · cases outcome with
          | ok sz2 =>
            simp [download_attachment, hd, hu, hga] at h
            exact h.1.symm
          | failed pb =>
            cases pb with
            | none => simp [download_attachment, hd, hu, hga] at h
            | some sz2 => simp [download_attachment, hd, hu, hga] at h
        · by_cases hsz : 0 < sz
          · simp [download_attachment, hd, hu, hga, hsz] at h
            exact h.1.symm
          · cases outcome with
            | ok sz2 =>
              simp [download_attachment, hd, hu, hga, hsz] at h
              exact h.1.symm
            | failed pb =>
              cases pb with
              | none => simp [download_attachment, hd, hu, hga, hsz] at h
              | some sz2 => simp [download_attachment, hd, hu, hga, hsz] at h
    · simp [download_attachment, hd] at h

/-- Witness for C9: with downloads enabled, a URL present, and the
target file already on disk with 5 bytes, the call returns the target
path, performs 0 transfers and leaves the filesystem untouched. -/
theorem c9_materialize_idempotent_witness :
    (cfgEx.download_attachments = true ∧
     (strOrEmpty aEx.content_url).isEmpty = false ∧
     alGet [(attachmentTargetPath cfgEx.attachments_dir 42 aEx, 5)]
       (attachmentTargetPath cfgEx.attachments_dir 42 aEx) = some 5 ∧
     0 < 5) ∧
    download_attachment cfgEx [(attachmentTargetPath cfgEx.attachments_dir 42 aEx, 5)]
      42 (some 5) aEx (Transfer.ok 9) =
      (some (attachmentTargetPath cfgEx.attachments_dir 42 aEx),
       [(attachmentTargetPath cfgEx.attachments_dir 42 aEx, 5)], 0) :=
  ⟨⟨rfl, rfl, by simp [alGet], by decide⟩,
   (c9_materialize_idempotent cfgEx
      [(attachmentTargetPath cfgEx.attachments_dir 42 aEx, 5)]
      42 (some 5) aEx (Transfer.ok 9)).2.2.1 rfl rfl 5 (by simp [alGet]) (by decide)⟩

/-! ## C8 -/

/-- C8: when the binary transfer actually runs (downloads enabled, a URL
present, no already-materialized file) and fails, the failure is caught:
`download_attachment` returns `none` instead of raising, and the
attachment step still upserts the attachment row — with `local_path`
absent — together with its raw snapshot.  Totality of the step function
is the model's form of "a transfer failure never aborts the sync". -/
theorem c8_attachment_failure_recovered (cfg : SyncConfig) (s : Store)
    (fs : FileSystem) (tid cid : Int) (a : AttachmentPayload) (pb : Option Nat)
    (henabled : cfg.download_attachments = true)
    (hurl : (strOrEmpty a.content_url).isEmpty = false)
    (hnofile : ∀ sz, alGet fs (attachmentTargetPath cfg.attachments_dir tid a) = some sz →
      sz = 0) :
    (download_attachment cfg fs tid (some cid) a (Transfer.failed pb)).1 = none ∧
    (processAttachment cfg s fs tid cid a (Transfer.failed pb)).1.attachments =
      alUpsert s.attachments a.id (attachmentRow tid (some cid) a none) ∧
    (processAttachment cfg s fs tid cid a (Transfer.failed pb)).1.raw_snapshots =
      alUpsert s.raw_snapshots ("attachments", a.id)
        { updated_at := parse_dt a.created_at, payload_json := Payload.attachmentP a } := by
  have h1 : (download_attachment cfg fs tid (some cid) a (Transfer.failed pb)).1 = none := by
    rcases hga : alGet fs (attachmentTargetPath cfg.attachments_dir tid a) with _ | sz
    · cases pb with
      | none => simp [download_attachment, henabled, hurl, hga]
      | some sz2 => simp [download_attachment, henabled, hurl, hga]
    · have hsz : sz = 0 := hnofile sz hga
      subst hsz
      cases pb with
      | none => simp [download_attachment, henabled, hurl, hga]
      | some sz2 => simp [download_attachment, henabled, hurl, hga]
  have h2 : (processAttachment cfg s fs tid cid a (Transfer.failed pb)).1 =
      upsert_attachment s tid (some cid) a none := by
    simp only [processAttachment, h1]
  exact ⟨h1, by rw [h2]; rfl, by rw [h2]; rfl⟩

/-- Witness for C8: a failing transfer against an empty filesystem still
yields an upserted attachment row with `local_path = none`. -/
theorem c8_attachment_failure_witness :
    (cfgEx.download_attachments = true ∧
     (strOrEmpty aEx.content_url).isEmpty = false) ∧
    (download_attachment cfgEx [] 42 (some 5) aEx (Transfer.failed none)).1 = none ∧
    (processAttachment cfgEx emptyStore [] 42 5 aEx (Transfer.failed none)).1.attachments =
      alUpsert emptyStore.attachments aEx.id (attachmentRow 42 (some 5) aEx none) :=
  ⟨⟨rfl, rfl⟩,
   (c8_attachment_failure_recovered cfgEx emptyStore [] 42 5 aEx none rfl rfl
      (fun _ h => Option.noConfusion h)).1,
   (c8_attachment_failure_recovered cfgEx emptyStore [] 42 5 aEx none rfl rfl
      (fun _ h => Option.noConfusion h)).2.1⟩

/-! ## C3 -/

/-- C3: for every entity type, applying the same typed upsert twice with
the same payload produces the very same store as applying it once (so
the row contents are identical), point lookup after an upsert returns
the freshly written row (every field unconditionally overwritten), and —
assuming the primary-key uniqueness the schema enforces — the upserted
table holds exactly one row for the primary id and stays duplicate-free. -/
theorem c3_upsert_idempotent (s : Store) (u : UserPayload) (o : OrgPayload)
    (t : TicketPayload) (tid : Int) (c : CommentPayload) (cid : Option Int)
    (a : AttachmentPayload) (lp : Option String) (v : ViewPayload)
    (tr : TriggerPayload) (tc : TriggerCategoryPayload) (m : MacroPayload) :
    (upsert_user (upsert_user s u) u = upsert_user s u ∧
      alGet (upsert_user s u).users u.id = some (userRow u) ∧
      ((alKeys s.users).Nodup →
        alCountKey (upsert_user (upsert_user s u) u).users u.id = 1 ∧
        (alKeys (upsert_user s u).users).Nodup)) ∧
    (upsert_org (upsert_org s o) o = upsert_org s o ∧
      alGet (upsert_org s o).organizations o.id = some (orgRow o) ∧
      ((alKeys s.organizations).Nodup →
        alCountKey (upsert_org (upsert_org s o) o).organizations o.id = 1 ∧
        (alKeys (upsert_org s o).organizations).Nodup)) ∧
    (upsert_ticket (upsert_ticket s t) t = upsert_ticket s t ∧
      alGet (upsert_ticket s t).tickets t.id = some (ticketRow t) ∧
      ((alKeys s.tickets).Nodup →
        alCountKey (upsert_ticket (upsert_ticket s t) t).tickets t.id = 1 ∧
        (alKeys (upsert_ticket s t).tickets).Nodup)) ∧
    (upsert_comment (upsert_comment s tid c) tid c = upsert_comment s tid c ∧
      alGet (upsert_comment s tid c).ticket_comments c.id = some (commentRow tid c) ∧
      ((alKeys s.ticket_comments).Nodup →
        alCountKey (upsert_comment (upsert_comment s tid c) tid c).ticket_comments c.id = 1 ∧
        (alKeys (upsert_comment s tid c).ticket_comments).Nodup)) ∧
    (upsert_attachment (upsert_attachment s tid cid a lp) tid cid a lp =
        upsert_attachment s tid cid a lp ∧
      alGet (upsert_attachment s tid cid a lp).attachments a.id =
        some (attachmentRow tid cid a lp) ∧
      ((alKeys s.attachments).Nodup →
        alCountKey (upsert_attachment (upsert_attachment s tid cid a lp) tid cid a lp).attachments
          a.id = 1 ∧
        (alKeys (upsert_attachment s tid cid a lp).attachments).Nodup)) ∧
    (upsert_view (upsert_view s v) v = upsert_view s v ∧
      alGet (upsert_view s v).views v.id = some (viewRow v) ∧
      ((alKeys s.views).Nodup →
        alCountKey (upsert_view (upsert_view s v) v).views v.id = 1 ∧
        (alKeys (upsert_view s v).views).Nodup)) ∧
    (upsert_trigger (upsert_trigger s tr) tr = upsert_trigger s tr ∧
      alGet (upsert_trigger s tr).triggers tr.id = some (triggerRow tr) ∧
      ((alKeys s.triggers).Nodup →
        alCountKey (upsert_trigger (upsert_trigger s tr) tr).triggers tr.id = 1 ∧
        (alKeys (upsert_trigger s tr).triggers).Nodup)) ∧
    (upsert_trigger_category (upsert_trigger_category s tc) tc = upsert_trigger_category s tc ∧
      alGet (upsert_trigger_category s tc).trigger_categories (toString tc.id) =
        some (triggerCategoryRow tc) ∧
      ((alKeys s.trigger_categories).Nodup →
        alCountKey (upsert_trigger_category (upsert_trigger_category s tc) tc).trigger_categories
          (toString tc.id) = 1 ∧
        (alKeys (upsert_trigger_category s tc).trigger_categories).Nodup)) ∧
    ( upsert_macro ( upsert_macro s m) m = upsert_macro s m ∧
      alGet ( upsert_macro s m).macros m.id = some (macroRow m) ∧
      ((alKeys s.macros).Nodup →
        alCountKey ( upsert_macro ( upsert_macro s m) m).macros m.id = 1 ∧
        (alKeys ( upsert_macro s m).macros).Nodup)) := by
  refine ⟨⟨?_, ?_, fun h => ⟨?_, ?_⟩⟩, ⟨?_, ?_, fun h => ⟨?_, ?_⟩⟩,
    ⟨?_, ?_, fun h => ⟨?_, ?_⟩⟩, ⟨?_, ?_, fun h => ⟨?_, ?_⟩⟩,
    ⟨?_, ?_, fun h => ⟨?_, ?_⟩⟩, ⟨?_, ?_, fun h => ⟨?_, ?_⟩⟩,
    ⟨?_, ?_, fun h => ⟨?_, ?_⟩⟩, ⟨?_, ?_, fun h => ⟨?_, ?_⟩⟩,
    ⟨?_, ?_, fun h => ⟨?_, ?_⟩⟩⟩
  · simp [upsert_user, upsert_raw, alUpsert_alUpsert_same]
  · exact alGet_alUpsert_self s.users u.id (userRow u)
  · show alCountKey (alUpsert (alUpsert s.users u.id (userRow u)) u.id (userRow u)) u.id = 1
    rw [alUpsert_alUpsert_same]
    exact alCountKey_alUpsert_of_nodup _ _ _ h
  · exact alKeys_nodup_alUpsert s.users u.id (userRow u) h
  · simp [upsert_org, upsert_raw, alUpsert_alUpsert_same]
  · exact alGet_alUpsert_self s.organizations o.id (orgRow o)
  · show alCountKey (alUpsert (alUpsert s.organizations o.id (orgRow o)) o.id (orgRow o)) o.id = 1
    rw [alUpsert_alUpsert_same]
    exact alCountKey_alUpsert_of_nodup _ _ _ h
  · exact alKeys_nodup_alUpsert s.organizations o.id (orgRow o) h
  · simp [upsert_ticket, upsert_raw, alUpsert_alUpsert_same]
  · exact alGet_alUpsert_self s.tickets t.id (ticketRow t)
  · show alCountKey (alUpsert (alUpsert s.tickets t.id (ticketRow t)) t.id (ticketRow t)) t.id = 1
    rw [alUpsert_alUpsert_same]
    exact alCountKey_alUpsert_of_nodup _ _ _ h
  · exact alKeys_nodup_alUpsert s.tickets t.id (ticketRow t) h
  · simp [upsert_comment, upsert_raw, alUpsert_alUpsert_same]
  · exact alGet_alUpsert_self s.ticket_comments c.id (commentRow tid c)
  · show alCountKey
      (alUpsert (alUpsert s.ticket_comments c.id (commentRow tid c)) c.id (commentRow tid c))
      c.id = 1
    rw [alUpsert_alUpsert_same]
    exact alCountKey_alUpsert_of_nodup _ _ _ h
  · exact alKeys_nodup_alUpsert s.ticket_comments c.id (commentRow tid c) h
  · simp [upsert_attachment, upsert_raw, alUpsert_alUpsert_same]
  · exact alGet_alUpsert_self s.attachments a.id (attachmentRow tid cid a lp)
  · show alCountKey
      (alUpsert (alUpsert s.attachments a.id (attachmentRow tid cid a lp)) a.id
        (attachmentRow tid cid a lp)) a.id = 1
    rw [alUpsert_alUpsert_same]
    exact alCountKey_alUpsert_of_nodup _ _ _ h
  · exact alKeys_nodup_alUpsert s.attachments a.id (attachmentRow tid cid a lp) h
  · simp [upsert_view, upsert_raw, alUpsert_alUpsert_same]
  · exact alGet_alUpsert_self s.views v.id (viewRow v)
  · show alCountKey (alUpsert (alUpsert s.views v.id (viewRow v)) v.id (viewRow v)) v.id = 1
    rw [alUpsert_alUpsert_same]
    exact alCountKey_alUpsert_of_nodup _ _ _ h
  · exact alKeys_nodup_alUpsert s.views v.id (viewRow v) h
  · simp [upsert_trigger, upsert_raw, alUpsert_alUpsert_same]
  · exact alGet_alUpsert_self s.triggers tr.id (triggerRow tr)
  · show alCountKey (alUpsert (alUpsert s.triggers tr.id (triggerRow tr)) tr.id (triggerRow tr))
      tr.id = 1
    rw [alUpsert_alUpsert_same]
    exact alCountKey_alUpsert_of_nodup _ _ _ h
  · exact alKeys_nodup_alUpsert s.triggers tr.id (triggerRow tr) h
  · simp [upsert_trigger_category, upsert_raw, alUpsert_alUpsert_same]
  · exact alGet_alUpsert_self s.trigger_categories (toString tc.id) (triggerCategoryRow tc)
  · show alCountKey
      (alUpsert (alUpsert s.trigger_categories (toString tc.id) (triggerCategoryRow tc))
        (toString tc.id) (triggerCategoryRow tc)) (toString tc.id) = 1
    rw [alUpsert_alUpsert_same]
    exact alCountKey_alUpsert_of_nodup _ _ _ h
  · exact alKeys_nodup_alUpsert s.trigger_categories (toString tc.id) (triggerCategoryRow tc) h
  · simp [ upsert_macro, upsert_raw, alUpsert_alUpsert_same]
  · exact alGet_alUpsert_self s.macros m.id (macroRow m)
  · show alCountKey (alUpsert (alUpsert s.macros m.id (macroRow m)) m.id (macroRow m)) m.id = 1
    rw [alUpsert_alUpsert_same]
    exact alCountKey_alUpsert_of_nodup _ _ _ h
  · exact alKeys_nodup_alUpsert s.macros m.id (macroRow m) h

/-- Witness for C3: on the empty store (duplicate-free keys) a repeated
user upsert equals a single one and leaves exactly one row for the id. -/
theorem c3_upsert_idempotent_witness :
    (alKeys emptyStore.users).Nodup ∧
    upsert_user (upsert_user emptyStore uEx) uEx = upsert_user emptyStore uEx ∧
    alCountKey (upsert_user (upsert_user emptyStore uEx) uEx).users uEx.id = 1 :=
  ⟨List.nodup_nil,
   (c3_upsert_idempotent emptyStore uEx oEx tExOpen 42 cEx (some 5) aEx none vEx
      trEx tcEx mEx).1.1,
   ((c3_upsert_idempotent emptyStore uEx oEx tExOpen 42 cEx (some 5) aEx none vEx
      trEx tcEx mEx).1.2.2 List.nodup_nil).1⟩

/-! ## C2 -/

/-- The backoff in effect `j` retryable attempts after starting with
value `b` (compare `backoffSeq`, which starts at the source's 1). -/
def backoffFrom (b : Nat) : Nat → Nat
  | 0 => b
  | j + 1 => backoffFrom (min (b * 2) 30) j

theorem backoffFrom_step (j : Nat) :
    ∀ b, backoffFrom (min (b * 2) 30) j = min (backoffFrom b j * 2) 30 := by
  induction j with
  | zero => intro b; rfl
  | succ j ih =>
    intro b
    simp only [backoffFrom]
    exact ih (min (b * 2) 30)

theorem backoffFrom_one (j : Nat) : backoffFrom 1 j = backoffSeq j := by
  induction j with
  | zero => rfl
  | succ j ih =>
    calc backoffFrom 1 (j + 1) = backoffFrom (min (1 * 2) 30) j := by
          simp only [backoffFrom]
      _ = min (backoffFrom 1 j * 2) 30 := backoffFrom_step j 1
      _ = min (backoffSeq j * 2) 30 := by rw [ih]
      _ = backoffSeq (j + 1) := by simp only [backoffSeq]

/-- The sleeps the loop performs across `k` consecutive retryable
responses: the `Retry-After` header when present, otherwise the
exponential backoff. -/
def plannedSleeps (responses : Nat → HttpResponse) (k : Nat) : List Nat :=
  (List.range k).map (fun i => (responses i).retryAfterHeader.getD (backoffSeq i))

theorem contains_retry_ne_200 {st : Nat} (h : RETRY_STATUS.contains st = true) :
    st ≠ 200 := by
  intro he
  subst he
  exact absurd h (by decide)

theorem range_map_shift (responses : Nat → HttpResponse) (i b k : Nat) :
    (List.range (k + 1)).map
        (fun j => (responses (i + j)).retryAfterHeader.getD (backoffFrom b j)) =
      (responses i).retryAfterHeader.getD b ::
        (List.range k).map
          (fun j => (responses (i + 1 + j)).retryAfterHeader.getD
            (backoffFrom (min (b * 2) 30) j)) := by
  rw [List.range_succ_eq_map, List.map_cons, List.map_map]
  congr 1
  apply List.map_congr_left
  intro j _
  simp only [Function.comp]
  rw [show i + (j + 1) = i + 1 + j from by omega]
  simp only [backoffFrom]

theorem retryLoop_exhausted (responses : Nat → HttpResponse) :
    ∀ (fuel i b : Nat) (sleeps : List Nat),
    (∀ j, j < fuel → RETRY_STATUS.contains (responses (i + j)).status = true) →
    retryLoop responses i fuel b sleeps =
      (FetchResult.exhausted,
       sleeps ++ (List.range fuel).map
         (fun j => (responses (i + j)).retryAfterHeader.getD (backoffFrom b j))) := by
  intro fuel
  induction fuel with
  | zero =>
    intro i b sleeps _
    simp [retryLoop]
  | succ fuel ih =>
    intro i b sleeps h
    have h0 : RETRY_STATUS.contains (responses i).status = true := by
      have := h 0 (Nat.succ_pos fuel)
      simpa using this
    have hne : (responses i).status ≠ 200 := contains_retry_ne_200 h0
    have hshift : ∀ j, j < fuel →
        RETRY_STATUS.contains (responses (i + 1 + j)).status = true := by
      intro j hj
      have := h (j + 1) (by omega)
      simpa [show i + (j + 1) = i + 1 + j from by omega] using this
    rw [retryLoop]
    simp only [hne, if_false, h0, if_true]
    rw [ih (i + 1) (min (b * 2) 30) _ hshift]
    rw [range_map_shift responses i b fuel]
    simp [List.append_assoc]

theorem retryLoop_exit (responses : Nat → HttpResponse) :
    ∀ (k fuel i b : Nat) (sleeps : List Nat),
    k < fuel →
    (∀ j, j < k → RETRY_STATUS.contains (responses (i + j)).status = true) →
    RETRY_STATUS.contains (responses (i + k)).status = false →
    retryLoop responses i fuel b sleeps =
      ((if (responses (i + k)).status = 200 then FetchResult.success (responses (i + k))
        else FetchResult.fatal (responses (i + k)).status (errorDetail (responses (i + k)))),
       sleeps ++ (List.range k).map
         (fun j => (responses (i + j)).retryAfterHeader.getD (backoffFrom b j))) := by
  intro k
  induction k with
  | zero =>
    intro fuel i b sleeps hk h hexit
    obtain ⟨fuel2, rfl⟩ : ∃ f2, fuel = f2 + 1 := ⟨fuel - 1, by omega⟩
    rw [retryLoop]
    simp only [Nat.add_zero] at hexit
    have hmem : (responses i).status ∉ RETRY_STATUS := by
      simpa using hexit
    by_cases h200 : (responses i).status = 200
    · simp [h200]
    · simp [h200, hmem]
  | succ k ih =>
    intro fuel i b sleeps hk h hexit
    obtain ⟨fuel2, rfl⟩ : ∃ f2, fuel = f2 + 1 := ⟨fuel - 1, by omega⟩
    have h0 : RETRY_STATUS.contains (responses i).status = true := by
      have := h 0 (Nat.succ_pos k)
      simpa using this
    have hne : (responses i).status ≠ 200 := contains_retry_ne_200 h0
    have hshift : ∀ j, j < k →
        RETRY_STATUS.contains (responses (i + 1 + j)).status = true := by
      intro j hj
      have := h (j + 1) (by omega)
      simpa [show i + (j + 1) = i + 1 + j from by omega] using this
    have hexit2 : RETRY_STATUS.contains (responses (i + 1 + k)).status = false := by
      simpa [show i + (k + 1) = i + 1 + k from by omega] using hexit
    rw [retryLoop]
    simp only [hne, if_false, h0, if_true]
    rw [ih fuel2 (i + 1) (min (b * 2) 30) _ (by omega) hshift hexit2]
    rw [range_map_shift responses i b k]
    rw [show i + (k + 1) = i + 1 + k from by omega]
    simp [List.append_assoc]

/-- C2: for every scripted response sequence, `get_with_retry` performs
at most 8 attempts; while responses have status in
`{429, 500, 502, 503, 504}` it sleeps the `Retry-After` value when
present and otherwise the exponential backoff starting at 1 and doubling
up to the ceiling 30; a 200 response is returned as success; any other
status raises immediately with its status and the truncated error body;
8 consecutive retryable responses exhaust the loop, which raises rather
than returning a value. -/
theorem c2_fetch_retry_classification (responses : Nat → HttpResponse) :
    (∀ k, k < 8 →
      (∀ j, j < k → RETRY_STATUS.contains (responses j).status = true) →
      RETRY_STATUS.contains (responses k).status = false →
      (((responses k).status = 200 →
        get_with_retry responses =
          (FetchResult.success (responses k), plannedSleeps responses k)) ∧
       ((responses k).status ≠ 200 →
        get_with_retry responses =
          (FetchResult.fatal (responses k).status (errorDetail (responses k)),
           plannedSleeps responses k)))) ∧
    ((∀ j, j < 8 → RETRY_STATUS.contains (responses j).status = true) →
      get_with_retry responses = (FetchResult.exhausted, plannedSleeps responses 8)) ∧
    (∀ i, plannedSleeps responses (i + 1) =
      plannedSleeps responses i ++ [(responses i).retryAfterHeader.getD (backoffSeq i)]) ∧
    backoffSeq 0 = 1 ∧ (∀ i, backoffSeq (i + 1) = min (backoffSeq i * 2) 30) := by
  refine ⟨?_, ?_, ?_, rfl, fun i => rfl⟩
  · intro k hk hpre hexit
    have hbase := retryLoop_exit responses k 8 0 1 [] hk
      (fun j hj => by rw [Nat.zero_add]; exact hpre j hj)
      (by rw [Nat.zero_add]; exact hexit)
    simp only [Nat.zero_add, backoffFrom_one, List.nil_append] at hbase
    constructor
    · intro h200
      rw [if_pos h200] at hbase
      exact hbase
    · intro h200
      rw [if_neg h200] at hbase
      exact hbase
  · intro h
    have hbase := retryLoop_exhausted responses 8 0 1 []
      (fun j hj => by rw [Nat.zero_add]; exact h j hj)
    simp only [Nat.zero_add, backoffFrom_one, List.nil_append] at hbase
    exact hbase
  · intro i
    simp [plannedSleeps, List.range_succ]

/-- A two-response script: one retryable 503 carrying `Retry-After: 7`,
then a 200. -/
def respEx : Nat → HttpResponse := fun i =>
  if i = 0 then { status := 503, retryAfterHeader := some 7, bodyJson := none, bodyText := "" }
  else { status := 200, retryAfterHeader := none, bodyJson := none, bodyText := "ok" }

/-- Witness for C2: on `respEx` the fetch sleeps the advertised 7
seconds once and returns the 200 response as success. -/
theorem c2_fetch_retry_witness :
    ((1 : Nat) < 8 ∧ RETRY_STATUS.contains (respEx 0).status = true ∧
     RETRY_STATUS.contains (respEx 1).status = false ∧ (respEx 1).status = 200) ∧
    get_with_retry respEx = (FetchResult.success (respEx 1), plannedSleeps respEx 1) :=
  ⟨⟨by decide, by decide, by decide, by decide⟩,
   ((c2_fetch_retry_classification respEx).1 1 (by decide)
      (fun j hj => by
        have hj0 : j = 0 := by omega
        subst hj0
        decide)
      (by decide)).1 (by decide)⟩

/-! ## C1 -/

theorem foldl_proj_eq {σ α β : Type} (f : σ → α → σ) (proj : σ → β)
    (hf : ∀ s x, proj (f s x) = proj s) :
    ∀ (l : List α) (s : σ), proj (List.foldl f s l) = proj s := by
  intro l
  induction l with
  | nil => intro s; rfl
  | cons x xs ih =>
    intro s
    rw [List.foldl_cons, ih, hf]

theorem sync_state_process_ticket_event (cfg : SyncConfig)
    (statusOf : Int → Option String) (dl : Int → Int → AttachmentPayload → Option String)
    (s : Store) (ev : TicketEventPayload) :
    (process_ticket_event cfg statusOf dl s ev).sync_state = s.sync_state := by
  unfold process_ticket_event
  by_cases hc : cfg.closed_tickets_only ∧
      ¬(strLower (strOrEmpty (statusOf ev.ticket_id)) = "closed")
  · rw [if_pos hc]
  · rw [if_neg hc]
    apply foldl_proj_eq _ Store.sync_state
    intro s1 ce
    by_cases he : orElseStr ce.event_type ce.type_key = some "Comment"
    · rw [if_pos he]
      show (List.foldl
          (fun s3 a => upsert_attachment s3 ev.ticket_id (some ce.id) a
            (dl ev.ticket_id ce.id a))
          (upsert_comment s1 ev.ticket_id (comment_of_child_event ce))
          ce.attachments).sync_state = s1.sync_state
      rw [foldl_proj_eq
        (fun s3 a => upsert_attachment s3 ev.ticket_id (some ce.id) a
          (dl ev.ticket_id ce.id a))
        Store.sync_state (fun _ _ => rfl)]
      rfl
    · rw [if_neg he]

/-- C1 (amended): the users, tickets and organizations coordinators do
persist their checkpoint within each page step (before the next page is
fetched): a truthy `after_cursor` (users, tickets) or a truthy
`end_time` (organizations) is written into `sync_state` by the step
itself.  The ticket-events coordinator, however, persists nothing while
a `next_page` remains — its `end_time` checkpoint is written only on the
final page of the run. -/
theorem c1_checkpoint_persistence_amended (cfg : SyncConfig)
    (commentsOf : Int → List CommentPayload) (statusOf : Int → Option String)
    (dl : Int → Int → AttachmentPayload → Option String) (s : Store)
    (pu : UsersPage) (po : OrgsPage) (pt : TicketsPage) (pe : EventsPage) :
    (∀ ac, pu.after_cursor = some ac → ac.isEmpty = false →
      get_cursor_val (sync_users_step s pu).1 "users" = some ac) ∧
    (∀ ac, pt.after_cursor = some ac → ac.isEmpty = false →
      get_cursor_val (sync_tickets_step cfg commentsOf dl s pt).1 "tickets" = some ac) ∧
    (∀ e, po.end_time = some e → e ≠ 0 →
      get_cursor_val (sync_organizations_step s po).1 "organizations" =
        some (toString e)) ∧
    (∀ url, pe.next_page = some url →
      (sync_ticket_events_step cfg statusOf dl s pe).1.sync_state = s.sync_state ∧
      (sync_ticket_events_step cfg statusOf dl s pe).2 = true) ∧
    (pe.next_page = none → ∀ e, pe.end_time = some e → e ≠ 0 →
      get_cursor_val (sync_ticket_events_step cfg statusOf dl s pe).1 "ticket_events" =
        some (toString e)) := by
  refine ⟨?_, ?_, ?_, ?_, ?_⟩
  · intro ac hac hne
    simp [sync_users_step, hac, hne, get_cursor_val, set_cursor_val, alGet_alUpsert_self]
  · intro ac hac hne
    simp [sync_tickets_step, hac, hne, get_cursor_val, set_cursor_val, alGet_alUpsert_self]
  · intro e he hne
    simp [sync_organizations_step, he, hne, get_cursor_val, set_cursor_val,
      alGet_alUpsert_self]
  · intro url hurl
    refine ⟨?_, ?_⟩
    · show (sync_ticket_events_step cfg statusOf dl s pe).1.sync_state = s.sync_state
      unfold sync_ticket_events_step
      rw [hurl]
      exact foldl_proj_eq _ Store.sync_state
        (sync_state_process_ticket_event cfg statusOf dl) _ _
    · unfold sync_ticket_events_step
      rw [hurl]
  · intro hnone e he hne
    unfold sync_ticket_events_step
    rw [hnone, he]
    simp [hne, get_cursor_val, set_cursor_val, alGet_alUpsert_self]

/-- C1 counterexample (against the claim as stated): a ticket-events
page that carries an advancing `end_time = 100` AND a `next_page` link —
the step leaves `sync_state` untouched (no checkpoint written) while
signalling that the next page is about to be fetched. -/
theorem c1_ticket_events_counterexample :
    (({ ticket_events := [], next_page := some "https://next", end_time := some 100 }
        : EventsPage).end_time = some 100) ∧
    (sync_ticket_events_step cfgEx (fun _ => none) (fun _ _ _ => none) emptyStore
      { ticket_events := [], next_page := some "https://next", end_time := some 100 }).1.sync_state
      = [] ∧
    (sync_ticket_events_step cfgEx (fun _ => none) (fun _ _ _ => none) emptyStore
      { ticket_events := [], next_page := some "https://next", end_time := some 100 }).2
      = true :=
  ⟨rfl, rfl, rfl⟩

/-- Witness for C1 (amended), at concrete pages. -/
theorem c1_checkpoint_persistence_witness :
    get_cursor_val
      (sync_users_step emptyStore
        { users := [], after_cursor := some "A", end_of_stream := false
          after_url := none }).1 "users" = some "A" ∧
    get_cursor_val
      (sync_organizations_step emptyStore
        { organizations := [], end_time := some 99, next_page := none }).1
      "organizations" = some (toString (99 : Int)) ∧
    get_cursor_val
      (sync_ticket_events_step cfgEx (fun _ => none) (fun _ _ _ => none) emptyStore
        { ticket_events := [], next_page := none, end_time := some 100 }).1
      "ticket_events" = some (toString (100 : Int)) :=
  ⟨(c1_checkpoint_persistence_amended cfgEx (fun _ => []) (fun _ => none)
      (fun _ _ _ => none) emptyStore
      { users := [], after_cursor := some "A", end_of_stream := false, after_url := none }
      { organizations := [], end_time := some 99, next_page := none }
      { tickets := [], after_cursor := none, end_of_stream := true, after_url := none }
      { ticket_events := [], next_page := none, end_time := some 100 }).1 "A" rfl rfl,
   (c1_checkpoint_persistence_amended cfgEx (fun _ => []) (fun _ => none)
      (fun _ _ _ => none) emptyStore
      { users := [], after_cursor := some "A", end_of_stream := false, after_url := none }
      { organizations := [], end_time := some 99, next_page := none }
      { tickets := [], after_cursor := none, end_of_stream := true, after_url := none }
      { ticket_events := [], next_page := none, end_time := some 100 }).2.2.1 99 rfl
      (by decide),
   (c1_checkpoint_persistence_amended cfgEx (fun _ => []) (fun _ => none)
      (fun _ _ _ => none) emptyStore
      { users := [], after_cursor := some "A", end_of_stream := false, after_url := none }
      { organizations := [], end_time := some 99, next_page := none }
      { tickets := [], after_cursor := none, end_of_stream := true, after_url := none }
      { ticket_events := [], next_page := none, end_time := some 100 }).2.2.2.2 rfl 100 rfl
      (by decide)⟩

/-! ## C6 -/

/-- No trace of the ticket: no `tickets` row keyed by the id, and no
`ticket_comments` or `attachments` row carrying it as `ticket_id`. -/
def ticket_rows_absent (s : Store) (tid : Int) : Prop :=
  alGet s.tickets tid = none ∧
  (∀ p ∈ s.ticket_comments, p.2.ticket_id ≠ tid) ∧
  (∀ p ∈ s.attachments, p.2.ticket_id ≠ tid)

theorem alGet_filter_key_ne {β : Type} (m : List (Int × β)) (k : Int) :
    alGet (m.filter (fun p => decide (p.1 ≠ k))) k = none := by
  induction m with
  | nil => rfl
  | cons p rest ih =>
    obtain ⟨k1, v1⟩ := p
    by_cases h : k1 = k
    · subst h
      simpa [List.filter_cons] using ih
    · simp only [List.filter_cons]
      rw [if_pos (by simp [h])]
      simp only [alGet, h, if_false]
      exact ih

theorem alGet_filter_of_none {β : Type} (m : List (Int × β)) (q : Int × β → Bool)
    (k : Int) (h : alGet m k = none) : alGet (m.filter q) k = none := by
  induction m with
  | nil => rfl
  | cons p rest ih =>
    obtain ⟨k1, v1⟩ := p
    by_cases hk : k1 = k
    · subst hk
      simp [alGet] at h
    · simp only [alGet, hk, if_false] at h
      rcases hq : q (k1, v1) with _ | _
      · simpa [List.filter_cons, hq] using ih h
      · simp only [List.filter_cons, hq, if_true]
        simp only [alGet, hk, if_false]
        exact ih h

theorem absent_delete_self (s : Store) (tid : Int) :
    ticket_rows_absent (delete_ticket s tid) tid := by
  refine ⟨alGet_filter_key_ne s.tickets tid, ?_, ?_⟩
  · intro p hp
    have := List.of_mem_filter hp
    simpa using this
  · intro p hp
    have := List.of_mem_filter hp
    simpa using this

theorem absent_delete_ticket (s : Store) (tid x : Int)
    (h : ticket_rows_absent s tid) : ticket_rows_absent (delete_ticket s x) tid := by
  obtain ⟨h1, h2, h3⟩ := h
  refine ⟨alGet_filter_of_none _ _ _ h1, ?_, ?_⟩
  · intro p hp
    exact h2 p (List.mem_of_mem_filter hp)
  · intro p hp
    exact h3 p (List.mem_of_mem_filter hp)

theorem absent_upsert_ticket (s : Store) (tid : Int) (t : TicketPayload)
    (hne : t.id ≠ tid) (h : ticket_rows_absent s tid) :
    ticket_rows_absent (upsert_ticket s t) tid := by
  obtain ⟨h1, h2, h3⟩ := h
  refine ⟨?_, h2, h3⟩
  show alGet (alUpsert s.tickets t.id (ticketRow t)) tid = none
  rw [alGet_alUpsert_ne s.tickets t.id tid (ticketRow t) (fun he => hne he.symm)]
  exact h1

theorem absent_upsert_comment (s : Store) (tid tid2 : Int) (c : CommentPayload)
    (hne : tid2 ≠ tid) (h : ticket_rows_absent s tid) :
    ticket_rows_absent (upsert_comment s tid2 c) tid := by
  obtain ⟨h1, h2, h3⟩ := h
  refine ⟨h1, ?_, h3⟩
  intro p hp
  rcases mem_alUpsert s.ticket_comments c.id (commentRow tid2 c) p hp with hold | hnew
  · exact h2 p hold
  · rw [hnew]
    exact hne

theorem absent_upsert_attachment (s : Store) (tid tid2 : Int) (cid : Option Int)
    (a : AttachmentPayload) (lp : Option String)
    (hne : tid2 ≠ tid) (h : ticket_rows_absent s tid) :
    ticket_rows_absent (upsert_attachment s tid2 cid a lp) tid := by
  obtain ⟨h1, h2, h3⟩ := h
  refine ⟨h1, h2, ?_⟩
  intro p hp
  rcases mem_alUpsert s.attachments a.id (attachmentRow tid2 cid a lp) p hp with hold | hnew
  · exact h3 p hold
  · rw [hnew]
    exact hne

theorem foldl_preserves {σ α : Type} (f : σ → α → σ) (P : σ → Prop) :
    ∀ (l : List α), (∀ x ∈ l, ∀ s, P s → P (f s x)) → ∀ s, P s → P (List.foldl f s l) := by
  intro l
  induction l with
  | nil => intro _ s h; exact h
  | cons x xs ih =>
    intro hf s h
    rw [List.foldl_cons]
    exact ih (fun y hy s2 h2 => hf y (List.mem_cons_of_mem _ hy) s2 h2) _
      (hf x (List.mem_cons_self _ _) s h)

theorem absent_process_ticket (cfg : SyncConfig) (commentsOf : Int → List CommentPayload)
    (dl : Int → Int → AttachmentPayload → Option String) (s : Store) (tid : Int)
    (t : TicketPayload) (hne : t.id ≠ tid) (h : ticket_rows_absent s tid) :
    ticket_rows_absent (process_ticket cfg commentsOf dl s t) tid := by
  unfold process_ticket
  by_cases hc : cfg.closed_tickets_only ∧ ¬(strLower (strOrEmpty t.status) = "closed")
  · rw [if_pos hc]
    by_cases hp : cfg.prune_reopened_from_db
    · rw [if_pos hp]
      exact absent_delete_ticket s tid t.id h
    · rw [if_neg hp]
      exact h
  · rw [if_neg hc]
    by_cases hm : cfg.use_ticket_events_for_comments
    · simp only [hm, not_true, if_neg, if_false]
      exact absent_upsert_ticket s tid t hne h
    · simp only [hm, not_false_iff, if_true]
      have hbase := absent_upsert_ticket s tid t hne h
      refine foldl_preserves _ (fun s2 => ticket_rows_absent s2 tid) (commentsOf t.id)
        ?_ _ hbase
      intro c _ s2 h2
      have hcomm := absent_upsert_comment s2 tid t.id c hne h2
      refine foldl_preserves _ (fun s3 => ticket_rows_absent s3 tid) c.attachments
        ?_ _ hcomm
      intro a _ s3 h3
      exact absent_upsert_attachment s3 tid t.id (some c.id) a (dl t.id c.id a) hne h3

theorem process_ticket_eq_delete (cfg : SyncConfig)
    (commentsOf : Int → List CommentPayload)
    (dl : Int → Int → AttachmentPayload → Option String) (s : Store) (t : TicketPayload)
    (h1 : cfg.closed_tickets_only = true) (h2 : cfg.prune_reopened_from_db = true)
    (h3 : strLower (strOrEmpty t.status) ≠ "closed") :
    process_ticket cfg commentsOf dl s t = delete_ticket s t.id := by
  unfold process_ticket
  rw [if_pos ⟨h1, h3⟩, if_pos h2]

theorem absent_foldl_no_tid (cfg : SyncConfig) (commentsOf : Int → List CommentPayload)
    (dl : Int → Int → AttachmentPayload → Option String) (tid : Int)
    (ts : List TicketPayload) (s : Store) (hts : ∀ t ∈ ts, t.id ≠ tid)
    (h : ticket_rows_absent s tid) :
    ticket_rows_absent (List.foldl (process_ticket cfg commentsOf dl) s ts) tid :=
  foldl_preserves _ (fun s2 => ticket_rows_absent s2 tid) ts
    (fun t ht s2 h2 => absent_process_ticket cfg commentsOf dl s2 tid t (hts t ht) h2) s h

theorem absent_after_last_nonclosed (cfg : SyncConfig)
    (commentsOf : Int → List CommentPayload)
    (dl : Int → Int → AttachmentPayload → Option String)
    (h1 : cfg.closed_tickets_only = true) (h2 : cfg.prune_reopened_from_db = true)
    (pre post : List TicketPayload) (t : TicketPayload)
    (h3 : strLower (strOrEmpty t.status) ≠ "closed")
    (hlast : ∀ t2 ∈ post, t2.id ≠ t.id) (s : Store) :
    ticket_rows_absent
      (List.foldl (process_ticket cfg commentsOf dl) s (pre ++ t :: post)) t.id := by
  rw [List.foldl_append, List.foldl_cons]
  apply absent_foldl_no_tid cfg commentsOf dl t.id post _ hlast
  rw [process_ticket_eq_delete cfg commentsOf dl _ t h1 h2 h3]
  exact absent_delete_self _ t.id

theorem foldl_comm {σ α : Type} (f : σ → α → σ) (g : σ → σ)
    (h : ∀ s x, f (g s) x = g (f s x)) :
    ∀ (l : List α) (s : σ), List.foldl f (g s) l = g (List.foldl f s l) := by
  intro l
  induction l with
  | nil => intro s; rfl
  | cons x xs ih =>
    intro s
    rw [List.foldl_cons, h, ih]
    rfl

theorem process_ticket_set_cursor_comm (cfg : SyncConfig)
    (commentsOf : Int → List CommentPayload)
    (dl : Int → Int → AttachmentPayload → Option String) (r tok : String)
    (s : Store) (t : TicketPayload) :
    process_ticket cfg commentsOf dl (set_cursor_val s r tok) t =
      set_cursor_val (process_ticket cfg commentsOf dl s t) r tok := by
  unfold process_ticket
  by_cases hc : cfg.closed_tickets_only ∧ ¬(strLower (strOrEmpty t.status) = "closed")
  · rw [if_pos hc, if_pos hc]
    by_cases hp : cfg.prune_reopened_from_db
    · rw [if_pos hp, if_pos hp]
      rfl
    · rw [if_neg hp, if_neg hp]
  · rw [if_neg hc, if_neg hc]
    by_cases hm : ¬cfg.use_ticket_events_for_comments
    · rw [if_pos hm, if_pos hm]
      have hbase : upsert_ticket (set_cursor_val s r tok) t =
          set_cursor_val (upsert_ticket s t) r tok := rfl
      rw [hbase]
      refine foldl_comm _ (fun x => set_cursor_val x r tok) ?_ (commentsOf t.id)
        (upsert_ticket s t)
      intro s2 c
      show List.foldl
          (fun s4 a => upsert_attachment s4 t.id (some c.id) a (dl t.id c.id a))
          (upsert_comment (set_cursor_val s2 r tok) t.id c) c.attachments =
        set_cursor_val (List.foldl
          (fun s4 a => upsert_attachment s4 t.id (some c.id) a (dl t.id c.id a))
          (upsert_comment s2 t.id c) c.attachments) r tok
      have hcbase : upsert_comment (set_cursor_val s2 r tok) t.id c =
          set_cursor_val (upsert_comment s2 t.id c) r tok := rfl
      rw [hcbase]
      exact foldl_comm _ (fun x => set_cursor_val x r tok) (fun _ _ => rfl)
        c.attachments (upsert_comment s2 t.id c)
    · rw [if_neg hm, if_neg hm]
      rfl

theorem foldl_from_cursor_proj (cfg : SyncConfig) (commentsOf : Int → List CommentPayload)
    (dl : Int → Int → AttachmentPayload → Option String) (s1 : Store) (ac : String)
    (l : List TicketPayload) :
    (List.foldl (process_ticket cfg commentsOf dl) (set_cursor_val s1 "tickets" ac) l).tickets =
      (List.foldl (process_ticket cfg commentsOf dl) s1 l).tickets ∧
    (List.foldl (process_ticket cfg commentsOf dl)
        (set_cursor_val s1 "tickets" ac) l).ticket_comments =
      (List.foldl (process_ticket cfg commentsOf dl) s1 l).ticket_comments ∧
    (List.foldl (process_ticket cfg commentsOf dl)
        (set_cursor_val s1 "tickets" ac) l).attachments =
      (List.foldl (process_ticket cfg commentsOf dl) s1 l).attachments := by
  rw [foldl_comm (process_ticket cfg commentsOf dl)
    (fun s => set_cursor_val s "tickets" ac)
    (fun s t => process_ticket_set_cursor_comm cfg commentsOf dl "tickets" ac s t) l s1]
  exact ⟨rfl, rfl, rfl⟩

theorem step_fst_cases (cfg : SyncConfig) (commentsOf : Int → List CommentPayload)
    (dl : Int → Int → AttachmentPayload → Option String) (s : Store) (p : TicketsPage) :
    (sync_tickets_step cfg commentsOf dl s p).1 =
        List.foldl (process_ticket cfg commentsOf dl) s p.tickets ∨
    ∃ ac, (sync_tickets_step cfg commentsOf dl s p).1 =
        set_cursor_val (List.foldl (process_ticket cfg commentsOf dl) s p.tickets)
          "tickets" ac := by
  unfold sync_tickets_step
  rcases hac : p.after_cursor with _ | ac
  · left
    rfl
  · by_cases hie : ac.isEmpty
    · left
      simp [hie]
    · right
      exact ⟨ac, by simp [hie]⟩

theorem run_pages_entity (cfg : SyncConfig) (commentsOf : Int → List CommentPayload)
    (dl : Int → Int → AttachmentPayload → Option String) :
    ∀ (pages : List TicketsPage) (s : Store),
    (sync_tickets_pages cfg commentsOf dl s pages).tickets =
      (List.foldl (process_ticket cfg commentsOf dl) s (observed_tickets pages)).tickets ∧
    (sync_tickets_pages cfg commentsOf dl s pages).ticket_comments =
      (List.foldl (process_ticket cfg commentsOf dl) s
        (observed_tickets pages)).ticket_comments ∧
    (sync_tickets_pages cfg commentsOf dl s pages).attachments =
      (List.foldl (process_ticket cfg commentsOf dl) s (observed_tickets pages)).attachments := by
  intro pages
  induction pages with
  | nil => intro s; exact ⟨rfl, rfl, rfl⟩
  | cons p rest ih =>
    intro s
    have hsnd : (sync_tickets_step cfg commentsOf dl s p).2
        = (decide ¬(p.end_of_stream = true)) := rfl
    by_cases hcond : ¬(p.end_of_stream = true) ∧ (p.after_url.isSome = true)
    · have hrun : sync_tickets_pages cfg commentsOf dl s (p :: rest) =
          sync_tickets_pages cfg commentsOf dl
            (sync_tickets_step cfg commentsOf dl s p).1 rest := by
        show (if ((sync_tickets_step cfg commentsOf dl s p).2 = true) ∧
            (p.after_url.isSome = true) then
            sync_tickets_pages cfg commentsOf dl
              (sync_tickets_step cfg commentsOf dl s p).1 rest
          else (sync_tickets_step cfg commentsOf dl s p).1) = _
        rw [if_pos ⟨by rw [hsnd]; simpa using hcond.1, hcond.2⟩]
      have hobs : observed_tickets (p :: rest) = p.tickets ++ observed_tickets rest := by
        show (p.tickets ++ (if ¬(p.end_of_stream = true) ∧ (p.after_url.isSome = true)
          then observed_tickets rest else [])) = _
        rw [if_pos hcond]
      rw [hrun, hobs, List.foldl_append]
      rcases step_fst_cases cfg commentsOf dl s p with hs2 | ⟨ac, hs2⟩
      · rw [hs2]
        exact ih _
      · rw [hs2]
        obtain ⟨ih1, ih2, ih3⟩ := ih (set_cursor_val
          (List.foldl (process_ticket cfg commentsOf dl) s p.tickets) "tickets" ac)
        obtain ⟨hf1, hf2, hf3⟩ := foldl_from_cursor_proj cfg commentsOf dl
          (List.foldl (process_ticket cfg commentsOf dl) s p.tickets) ac
          (observed_tickets rest)
        exact ⟨ih1.trans hf1, ih2.trans hf2, ih3.trans hf3⟩
    · have hrun : sync_tickets_pages cfg commentsOf dl s (p :: rest) =
          (sync_tickets_step cfg commentsOf dl s p).1 := by
        show (if ((sync_tickets_step cfg commentsOf dl s p).2 = true) ∧
            (p.after_url.isSome = true) then
            sync_tickets_pages cfg commentsOf dl
              (sync_tickets_step cfg commentsOf dl s p).1 rest
          else (sync_tickets_step cfg commentsOf dl s p).1) = _
        rw [if_neg (by
          intro hcontra
          apply hcond
          refine ⟨?_, hcontra.2⟩
          have h2 := hcontra.1
          rw [hsnd] at h2
          simpa using h2)]
      have hobs : observed_tickets (p :: rest) = p.tickets ++ [] := by
        show (p.tickets ++ (if ¬(p.end_of_stream = true) ∧ (p.after_url.isSome = true)
          then observed_tickets rest else [])) = _
        rw [if_neg hcond]
      rw [hrun, hobs, List.append_nil]
      rcases step_fst_cases cfg commentsOf dl s p with hs2 | ⟨ac, hs2⟩
      · rw [hs2]
        exact ⟨rfl, rfl, rfl⟩
      · rw [hs2]
        exact ⟨rfl, rfl, rfl⟩

theorem keys_mono_process_ticket (cfg : SyncConfig)
    (commentsOf : Int → List CommentPayload)
    (dl : Int → Int → AttachmentPayload → Option String) (s : Store) (t : TicketPayload)
    (h : ¬(cfg.closed_tickets_only = true ∧ cfg.prune_reopened_from_db = true ∧
      strLower (strOrEmpty t.status) ≠ "closed")) (k : Int) :
    ((alGet s.tickets k).isSome = true →
      (alGet (process_ticket cfg commentsOf dl s t).tickets k).isSome = true) ∧
    ((alGet s.ticket_comments k).isSome = true →
      (alGet (process_ticket cfg commentsOf dl s t).ticket_comments k).isSome = true) ∧
    ((alGet s.attachments k).isSome = true →
      (alGet (process_ticket cfg commentsOf dl s t).attachments k).isSome = true) := by
  unfold process_ticket
  by_cases hc : cfg.closed_tickets_only ∧ ¬(strLower (strOrEmpty t.status) = "closed")
  · rw [if_pos hc]
    by_cases hp : cfg.prune_reopened_from_db
    · exact absurd ⟨hc.1, hp, hc.2⟩ h
    · rw [if_neg hp]
      exact ⟨id, id, id⟩
  · rw [if_neg hc]
    by_cases hm : ¬cfg.use_ticket_events_for_comments
    · rw [if_pos hm]
      refine ⟨?_, ?_, ?_⟩
      · intro hk
        have hproj : (List.foldl
            (fun s2 c =>
              let s3 := upsert_comment s2 t.id c
              List.foldl
                (fun s4 a => upsert_attachment s4 t.id (some c.id) a (dl t.id c.id a))
                s3 c.attachments)
            (upsert_ticket s t) (commentsOf t.id)).tickets =
            (upsert_ticket s t).tickets := by
          apply foldl_proj_eq _ Store.tickets
          intro s2 c
          show (List.foldl
            (fun s4 a => upsert_attachment s4 t.id (some c.id) a (dl t.id c.id a))
            (upsert_comment s2 t.id c) c.attachments).tickets = s2.tickets
          rw [foldl_proj_eq
            (fun s4 a => upsert_attachment s4 t.id (some c.id) a (dl t.id c.id a))
            Store.tickets (fun _ _ => rfl)]
          rfl
        show (alGet (List.foldl
            (fun s2 c =>
              let s3 := upsert_comment s2 t.id c
              List.foldl
                (fun s4 a => upsert_attachment s4 t.id (some c.id) a (dl t.id c.id a))
                s3 c.attachments)
            (upsert_ticket s t) (commentsOf t.id)).tickets k).isSome = true
        rw [hproj]
        exact alGet_isSome_alUpsert s.tickets t.id k (ticketRow t) hk
      · intro hk
        refine foldl_preserves _
          (fun s2 => (alGet s2.ticket_comments k).isSome = true) (commentsOf t.id)
          ?_ (upsert_ticket s t) hk
        intro c _ s2 h2
        have hproj : (List.foldl
            (fun s4 a => upsert_attachment s4 t.id (some c.id) a (dl t.id c.id a))
            (upsert_comment s2 t.id c) c.attachments).ticket_comments =
            (upsert_comment s2 t.id c).ticket_comments := by
          rw [foldl_proj_eq
            (fun s4 a => upsert_attachment s4 t.id (some c.id) a (dl t.id c.id a))
            Store.ticket_comments (fun _ _ => rfl)]
        show (alGet (List.foldl
            (fun s4 a => upsert_attachment s4 t.id (some c.id) a (dl t.id c.id a))
            (upsert_comment s2 t.id c) c.attachments).ticket_comments k).isSome = true
        rw [hproj]
        exact alGet_isSome_alUpsert s2.ticket_comments c.id k (commentRow t.id c) h2
      · intro hk
        refine foldl_preserves _
          (fun s2 => (alGet s2.attachments k).isSome = true) (commentsOf t.id)
          ?_ (upsert_ticket s t) hk
        intro c _ s2 h2
        show (alGet (List.foldl
            (fun s4 a => upsert_attachment s4 t.id (some c.id) a (dl t.id c.id a))
            (upsert_comment s2 t.id c) c.attachments).attachments k).isSome = true
        refine foldl_preserves _
          (fun s3 => (alGet s3.attachments k).isSome = true) c.attachments
          ?_ (upsert_comment s2 t.id c) h2
        intro a _ s3 h3
        exact alGet_isSome_alUpsert s3.attachments a.id k
          (attachmentRow t.id (some c.id) a (dl t.id c.id a)) h3
    · rw [if_neg hm]
      refine ⟨?_, id, id⟩
      intro hk
      exact alGet_isSome_alUpsert s.tickets t.id k (ticketRow t) hk

theorem keys_preserved_foldl (cfg : SyncConfig)
    (commentsOf : Int → List CommentPayload)
    (dl : Int → Int → AttachmentPayload → Option String) (k : Int)
    (ts : List TicketPayload)
    (hts : ∀ t ∈ ts, ¬(cfg.closed_tickets_only = true ∧
      cfg.prune_reopened_from_db = true ∧ strLower (strOrEmpty t.status) ≠ "closed"))
    (s : Store) :
    ((alGet s.tickets k).isSome = true →
      (alGet (List.foldl (process_ticket cfg commentsOf dl) s ts).tickets k).isSome
        = true) ∧
    ((alGet s.ticket_comments k).isSome = true →
      (alGet (List.foldl (process_ticket cfg commentsOf dl) s ts).ticket_comments k).isSome
        = true) ∧
    ((alGet s.attachments k).isSome = true →
      (alGet (List.foldl (process_ticket cfg commentsOf dl) s ts).attachments k).isSome
        = true) := by
  refine ⟨?_, ?_, ?_⟩
  · intro h0
    exact foldl_preserves _ (fun s2 => (alGet s2.tickets k).isSome = true) ts
      (fun t ht s2 h2 =>
        (keys_mono_process_ticket cfg commentsOf dl s2 t (hts t ht) k).1 h2) s h0
  · intro h0
    exact foldl_preserves _ (fun s2 => (alGet s2.ticket_comments k).isSome = true) ts
      (fun t ht s2 h2 =>
        (keys_mono_process_ticket cfg commentsOf dl s2 t (hts t ht) k).2.1 h2) s h0
  · intro h0
    exact foldl_preserves _ (fun s2 => (alGet s2.attachments k).isSome = true) ts
      (fun t ht s2 h2 =>
        (keys_mono_process_ticket cfg commentsOf dl s2 t (hts t ht) k).2.2 h2) s h0

/-- C6 (amended): with closed-only filtering and pruning both enabled,
every ticket whose LAST observation during the run has a non-closed
status is absent from the store after the run — its ticket row, its
comments and its attachments, even if those rows existed before the run.
Moreover, a primary key of `tickets`, `ticket_comments` or `attachments`
that was present before the run can only be gone afterwards if both
flags were set and the run observed some non-closed ticket — i.e. the
prune branch is the only delete path. -/
theorem c6_filtered_deletion_amended (cfg : SyncConfig)
    (commentsOf : Int → List CommentPayload)
    (dl : Int → Int → AttachmentPayload → Option String)
    (s : Store) (pages : List TicketsPage) :
    (cfg.closed_tickets_only = true → cfg.prune_reopened_from_db = true →
      ∀ pre t post, observed_tickets pages = pre ++ t :: post →
        strLower (strOrEmpty t.status) ≠ "closed" →
        (∀ t2 ∈ post, t2.id ≠ t.id) →
        ticket_rows_absent (sync_tickets_pages cfg commentsOf dl s pages) t.id) ∧
    (∀ k, (alGet s.tickets k).isSome = true →
      (alGet (sync_tickets_pages cfg commentsOf dl s pages).tickets k).isSome = false →
      cfg.closed_tickets_only = true ∧ cfg.prune_reopened_from_db = true ∧
      ∃ t ∈ observed_tickets pages, strLower (strOrEmpty t.status) ≠ "closed") ∧
    (∀ k, (alGet s.ticket_comments k).isSome = true →
      (alGet (sync_tickets_pages cfg commentsOf dl s pages).ticket_comments k).isSome
        = false →
      cfg.closed_tickets_only = true ∧ cfg.prune_reopened_from_db = true ∧
      ∃ t ∈ observed_tickets pages, strLower (strOrEmpty t.status) ≠ "closed") ∧
    (∀ k, (alGet s.attachments k).isSome = true →
      (alGet (sync_tickets_pages cfg commentsOf dl s pages).attachments k).isSome
        = false →
      cfg.closed_tickets_only = true ∧ cfg.prune_reopened_from_db = true ∧
      ∃ t ∈ observed_tickets pages, strLower (strOrEmpty t.status) ≠ "closed") := by
  obtain ⟨hrun1, hrun2, hrun3⟩ := run_pages_entity cfg commentsOf dl pages s
  refine ⟨?_, ?_, ?_, ?_⟩
  · intro h1 h2 pre t post hobs hnc hlast
    have habs : ticket_rows_absent
        (List.foldl (process_ticket cfg commentsOf dl) s (observed_tickets pages)) t.id := by
      rw [hobs]
      exact absent_after_last_nonclosed cfg commentsOf dl h1 h2 pre post t hnc hlast s
    obtain ⟨ha1, ha2, ha3⟩ := habs
    refine ⟨?_, ?_, ?_⟩
    · rw [hrun1]
      exact ha1
    · rw [hrun2]
      exact ha2
    · rw [hrun3]
      exact ha3
  · intro k hsome hnone
    rcases Classical.em (cfg.closed_tickets_only = true ∧ cfg.prune_reopened_from_db = true ∧
        ∃ t ∈ observed_tickets pages, strLower (strOrEmpty t.status) ≠ "closed")
      with hyes | hno
    · exact ⟨hyes.1, hyes.2.1, hyes.2.2⟩
    · exfalso
      have hper : ∀ t ∈ observed_tickets pages,
          ¬(cfg.closed_tickets_only = true ∧ cfg.prune_reopened_from_db = true ∧
            strLower (strOrEmpty t.status) ≠ "closed") := by
        intro t ht hcontra
        exact hno ⟨hcontra.1, hcontra.2.1, ⟨t, ht, hcontra.2.2⟩⟩
      have hkeep := (keys_preserved_foldl cfg commentsOf dl k
        (observed_tickets pages) hper s).1 hsome
      rw [hrun1] at hnone
      rw [hkeep] at hnone
      exact absurd hnone (by decide)
  · intro k hsome hnone
    rcases Classical.em (cfg.closed_tickets_only = true ∧ cfg.prune_reopened_from_db = true ∧
        ∃ t ∈ observed_tickets pages, strLower (strOrEmpty t.status) ≠ "closed")
      with hyes | hno
    · exact ⟨hyes.1, hyes.2.1, hyes.2.2⟩
    · exfalso
      have hper : ∀ t ∈ observed_tickets pages,
          ¬(cfg.closed_tickets_only = true ∧ cfg.prune_reopened_from_db = true ∧
            strLower (strOrEmpty t.status) ≠ "closed") := by
        intro t ht hcontra
        exact hno ⟨hcontra.1, hcontra.2.1, ⟨t, ht, hcontra.2.2⟩⟩
      have hkeep := (keys_preserved_foldl cfg commentsOf dl k
        (observed_tickets pages) hper s).2.1 hsome
      rw [hrun2] at hnone
      rw [hkeep] at hnone
      exact absurd hnone (by decide)
  · intro k hsome hnone
    rcases Classical.em (cfg.closed_tickets_only = true ∧ cfg.prune_reopened_from_db = true ∧
        ∃ t ∈ observed_tickets pages, strLower (strOrEmpty t.status) ≠ "closed")
      with hyes | hno
    · exact ⟨hyes.1, hyes.2.1, hyes.2.2⟩
    · exfalso
      have hper : ∀ t ∈ observed_tickets pages,
          ¬(cfg.closed_tickets_only = true ∧ cfg.prune_reopened_from_db = true ∧
            strLower (strOrEmpty t.status) ≠ "closed") := by
        intro t ht hcontra
        exact hno ⟨hcontra.1, hcontra.2.1, ⟨t, ht, hcontra.2.2⟩⟩
      have hkeep := (keys_preserved_foldl cfg commentsOf dl k
        (observed_tickets pages) hper s).2.2 hsome
      rw [hrun3] at hnone
      rw [hkeep] at hnone
      exact absurd hnone (by decide)

/-- C6 counterexample (against the claim as stated): with closed-only
filtering and pruning enabled, a run that observes ticket 42 with status
"open" and then observes the same ticket again with status "closed"
ends with ticket 42 PRESENT in the store — although ticket 42 was
"observed during the run with a status that is not closed". -/
theorem c6_reobserved_closed_counterexample :
    cfgEx.closed_tickets_only = true ∧ cfgEx.prune_reopened_from_db = true ∧
    observed_tickets
      [{ tickets := [tExOpen, tExClosed], after_cursor := none
         end_of_stream := true, after_url := none }] = [tExOpen, tExClosed] ∧
    strLower (strOrEmpty tExOpen.status) ≠ "closed" ∧ tExOpen.id = 42 ∧
    (alGet (sync_tickets_pages cfgEx (fun _ => []) (fun _ _ _ => none) emptyStore
      [{ tickets := [tExOpen, tExClosed], after_cursor := none
         end_of_stream := true, after_url := none }]).tickets 42).isSome = true :=
  ⟨rfl, rfl, rfl, by decide, rfl, rfl⟩

/-- Witness for C6 (amended): ticket 42, present from a prior run, is
observed once with status "open" (its last observation) under
closed-only + prune; after the run no trace of it remains. -/
theorem c6_filtered_deletion_witness :
    (strLower (strOrEmpty tExOpen.status) ≠ "closed" ∧
     observed_tickets
       [{ tickets := [tExOpen], after_cursor := none
          end_of_stream := true, after_url := none }] = [] ++ tExOpen :: [] ∧
     (alGet (upsert_ticket emptyStore tExClosed).tickets 42).isSome = true) ∧
    ticket_rows_absent
      (sync_tickets_pages cfgEx (fun _ => []) (fun _ _ _ => none)
        (upsert_ticket emptyStore tExClosed)
        [{ tickets := [tExOpen], after_cursor := none
           end_of_stream := true, after_url := none }])
      tExOpen.id :=
  ⟨⟨by decide, rfl, rfl⟩,
   (c6_filtered_deletion_amended cfgEx (fun _ => []) (fun _ _ _ => none)
      (upsert_ticket emptyStore tExClosed)
      [{ tickets := [tExOpen], after_cursor := none
         end_of_stream := true, after_url := none }]).1 rfl rfl [] tExOpen [] rfl
      (by decide) (fun t2 ht2 => absurd ht2 (List.not_mem_nil t2))⟩

end ZBackup
